import Mathlib

/-!
Verification of the scene-construction and layered-mesh-synthesis pipeline of
the print3dhood repository (src/app/services/mesher.py), over a shallow
embedding.

Modelling conventions.
The external geometry library (shapely, the "Geometry Algebra" of the design)
represents regions of the plane; the embedding models a geometry by the finite
list of its coordinates, with exact rational arithmetic.  The boolean set
operations used by the pipeline (union, intersection, difference, emptiness)
are given their canonical set semantics on these coordinate lists.  The
metric/constructive operations that the pipeline merely calls through to the
library, without depending on their internals (point buffering into a disk,
negative polygon buffering, line buffering, polygon containment of a point,
polygon centroid, point distance, map projection, polygon area), are kept
abstract in a GeomLib record; theorems assume only the facts about them that
the design itself assumes (for example: a buffered disk of radius r lies
within distance r of its centre).  The exterior/hole ring structure of a
polygon is abstracted to the list of all its coordinates carried in the outer
ring; every claim below quantifies over all coordinates of all rings, so the
abstraction preserves the meaning of the claims.  Multi-polygon structure collapses
to a single geometry, so iterating the polygons of a geometry yields the
geometry itself when it is non-empty.  Floating point numbers are modelled by
exact rationals.  Python exceptions are modelled by the Except monad.
-/

namespace Print3dhood

/-- A planar point with exact rational coordinates. -/
abbrev Pt : Type := ℚ × ℚ

/-- Model of a shapely geometry: the finite list of its coordinates. -/
abbrev Geom : Type := List Pt

/-- shapely geometry.intersection: the coordinates lying in both geometries. -/
def Geom.intersection (g other : Geom) : Geom :=
  g.filter fun p => p ∈ other

/-- shapely geometry.difference: the coordinates of the first geometry not in
the second. -/
def Geom.difference (g other : Geom) : Geom :=
  g.filter fun p => p ∉ other

/-- shapely geometry.is_empty. -/
def Geom.isEmpty (g : Geom) : Bool :=
  g = []

/-- The abstract operations of the external geometry library (shapely) and the
coordinate projector (pyproj) that the pipeline calls: the pipeline never
inspects their internals, so they are parameters of the embedding. -/
structure GeomLib where
  /-- overpass.project_point: EPSG:4326 to EPSG:3857. -/
  projectPoint : ℚ → ℚ → Pt
  /-- Point(c).buffer(r, resolution): a polygonal disk of radius r at c. -/
  bufferPoint : Pt → ℚ → Geom
  /-- polygon.buffer(-m): inward offset by m. -/
  shrinkBuffer : Geom → ℚ → Geom
  /-- line.buffer(w, cap_style=2, join_style=2): road groove footprint. -/
  lineBuffer : Geom → ℚ → Geom
  /-- polygon.contains(point): region containment test. -/
  containsPoint : Geom → Pt → Bool
  /-- polygon.centroid. -/
  centroid : Geom → Pt
  /-- point.distance(point): Euclidean distance. -/
  distance : Pt → Pt → ℚ
  /-- polygon.area. -/
  area : Geom → ℚ

/-- config.Settings: the configuration snapshot returned by get_settings().
Field defaults are the values of config.py; the environment may override them,
so the embedding passes the snapshot explicitly. -/
structure Settings where
  base_thickness_m : ℚ := 0.0075
  green_layer_thickness_m : ℚ := 0.0075
  building_layer_thickness_m : ℚ := 0.0075
  road_groove_depth_m : ℚ := 0.0015
  base_padding_m : ℚ := 5.0
  target_print_diameter_m : ℚ := 0.2
  road_indent_width_m : ℚ := 4.0
  park_indent_shrink_m : ℚ := 1.0
  highlight_peg_depth_m : ℚ := 0.0045
  default_height_m : ℚ := 10.0
  level_height_m : ℚ := 3.0
  min_height_m : ℚ := 3.0
  highlight_enabled : Bool := true
deriving DecidableEq

/-- The default configuration of config.py. -/
def defaultSettings : Settings := {}

/-- models.ModelRequest (its validated fields). -/
structure ModelRequest where
  latitude : ℚ
  longitude : ℚ
  radius_meters : ℤ
  highlight_home : Bool := true
  formats : List String := ["stl"]
deriving DecidableEq

/-- overpass.BuildingFootprint. -/
structure BuildingFootprint where
  osm_id : ℤ
  polygon_projected : Geom
  polygon_wgs84 : Geom
  height_m : ℚ
  name : Option String := none
deriving DecidableEq

/-- overpass.RoadFeature. -/
structure RoadFeature where
  osm_id : ℤ
  line_projected : Geom
deriving DecidableEq

/-- overpass.ParkFeature. -/
structure ParkFeature where
  osm_id : ℤ
  polygon_projected : Geom
deriving DecidableEq

/-- overpass.WaterFeature. -/
structure WaterFeature where
  osm_id : ℤ
  polygon_projected : Geom
deriving DecidableEq

/-- models.BuildingSummary. -/
structure BuildingSummary where
  osm_id : ℤ
  height_m : ℚ
  footprint_area_m2 : ℚ
  name : Option String := none
deriving DecidableEq

/-- models.PolygonPath (ring structure abstracted: all coordinates of the
source polygon are carried in the outer ring of the model path). -/
structure PolygonPath where
  outer : List Pt
  holes : List (List Pt) := []
deriving DecidableEq

/-- models.LayerInfo. -/
structure LayerInfo where
  name : String
  thickness_m : ℚ
  description : String
deriving DecidableEq

/-- models.LayerPreview. -/
structure LayerPreview where
  name : String
  thickness_m : ℚ
  base_color : String
  feature_color : String
  overlay_color : Option String := none
  description : String
  base_paths : List PolygonPath
  feature_paths : List PolygonPath := []
  overlay_paths : List PolygonPath := []
deriving DecidableEq

/-- models.ModelMetadata. -/
structure ModelMetadata where
  building_count : ℕ
  radius_meters : ℤ
  highlighted : Bool
  formats : List String
  origin : Pt
  scale_ratio : ℚ
  layers : List LayerInfo
  buildings : List BuildingSummary
deriving DecidableEq

/-- mesher.PreparedGeometries. -/
structure PreparedGeometries where
  base_circle : Geom
  water_union : Geom
  land_no_water : Geom
  park_union : Geom
  building_base : Geom
  road_union : Geom
  building_mesh_data : List (List Geom × ℚ)
  building_summaries : List BuildingSummary
  home_polygons : List Geom
  home_height : Option ℚ
deriving DecidableEq

/-- mesher.SceneContext. -/
structure SceneContext where
  settings : Settings
  origin_x : ℚ
  origin_y : ℚ
  scale_factor : ℚ
  print_radius : ℚ
  prepared : PreparedGeometries
deriving DecidableEq

/-- mesher._union_geometries: drop empty inputs and union the rest; the model
of a union of geometries is the concatenation of their coordinate lists. -/
def unionGeometries (geometries : List Geom) : Geom :=
  ((geometries.filter fun geom => geom ≠ []).foldr (· ++ ·) [])

/-- mesher._clip_to_circle. -/
def clipToCircle (geometry : Geom) (circle : Geom) : Geom :=
  if geometry = [] then [] else geometry.intersection circle

/-- mesher._to_local_scaled: translate by the negated origin, then scale both
axes by scale_factor about (0, 0). -/
def toLocalScaled (geometry : Geom) (origin_x origin_y scale_factor : ℚ) : Geom :=
  geometry.map fun p =>
    ((p.1 - origin_x) * scale_factor, (p.2 - origin_y) * scale_factor)

/-- mesher._iter_polygons: in the model, multi-polygon structure collapses, so
a non-empty geometry yields itself as the single polygon. -/
def iterPolygons (geometry : Geom) : List Geom :=
  if geometry = [] then [] else [geometry]

/-- mesher._normalize_point. -/
def normalizePoint (x y radius : ℚ) : Pt :=
  if radius = 0 then (0, 0)
  else ((x + radius) / (2 * radius), 1 - ((y + radius) / (2 * radius)))

/-- mesher._geometry_to_paths. -/
def geometryToPaths (geometry : Geom) (radius : ℚ) : List PolygonPath :=
  if geometry = [] then []
  else
    (iterPolygons geometry).map fun polygon =>
      { outer := polygon.map fun p => normalizePoint p.1 p.2 radius
        holes := [] }

/-- Accumulator of the building loop of mesher._prepare_geometries. -/
structure BuildingAcc where
  building_mesh_data : List (List Geom × ℚ) := []
  building_polygons_all : List Geom := []
  building_summaries : List BuildingSummary := []
  home_polygons : List Geom := []
  home_height : Option ℚ := none
deriving DecidableEq

/-- Python truthiness of the optional home building combined with the id
comparison of mesher._prepare_geometries line 275. -/
def isHomeMatch (home_building : Option BuildingFootprint)
    (footprint : BuildingFootprint) : Bool :=
  match home_building with
  | none => false
  | some home => footprint.osm_id = home.osm_id

/-- One iteration of the building loop of mesher._prepare_geometries
(lines 258-280). -/
def processBuilding (lib : GeomLib) (circle_world : Geom)
    (origin_x origin_y scale_factor : ℚ)
    (home_building : Option BuildingFootprint)
    (acc : BuildingAcc) (footprint : BuildingFootprint) : BuildingAcc :=
  let clipped := footprint.polygon_projected.intersection circle_world
  if clipped = [] then acc
  else
    let localGeom := toLocalScaled clipped origin_x origin_y scale_factor
    let polygons := (iterPolygons localGeom).filter fun poly => poly ≠ []
    if polygons = [] then acc
    else
      let scaled_height := max (footprint.height_m * scale_factor) (1/2000)
      let summary : BuildingSummary :=
        { osm_id := footprint.osm_id
          height_m := footprint.height_m
          footprint_area_m2 := lib.area footprint.polygon_projected
          name := footprint.name }
      let acc1 :=
        { acc with building_summaries := acc.building_summaries ++ [summary] }
      let acc2 :=
        if isHomeMatch home_building footprint then
          { acc1 with home_polygons := polygons, home_height := some scaled_height }
        else
          { acc1 with building_mesh_data :=
              acc1.building_mesh_data ++ [(polygons, scaled_height)] }
      { acc2 with building_polygons_all := acc2.building_polygons_all ++ polygons }

/-- The whole building loop of mesher._prepare_geometries. -/
def processBuildings (lib : GeomLib) (buildings : List BuildingFootprint)
    (circle_world : Geom) (origin_x origin_y scale_factor : ℚ)
    (home_building : Option BuildingFootprint) : BuildingAcc :=
  buildings.foldl
    (processBuilding lib circle_world origin_x origin_y scale_factor home_building)
    {}

/-- The park loop of mesher._prepare_geometries (lines 285-295). -/
def parkPolygons (lib : GeomLib) (parks : List ParkFeature)
    (origin_x origin_y scale_factor park_shrink : ℚ) : List Geom :=
  parks.flatMap fun feature =>
    (iterPolygons
        (toLocalScaled feature.polygon_projected origin_x origin_y scale_factor)).flatMap
      fun polygon =>
        if park_shrink > 0 then iterPolygons (lib.shrinkBuffer polygon park_shrink)
        else [polygon]

/-- The water comprehension of mesher._prepare_geometries (lines 296-302). -/
def waterPolygons (waters : List WaterFeature)
    (origin_x origin_y scale_factor : ℚ) : List Geom :=
  waters.flatMap fun feature =>
    iterPolygons (toLocalScaled feature.polygon_projected origin_x origin_y scale_factor)

/-- The road loop of mesher._prepare_geometries (lines 303-309). -/
def roadBuffers (lib : GeomLib) (roads : List RoadFeature)
    (origin_x origin_y scale_factor road_width : ℚ) : List Geom :=
  roads.flatMap fun road =>
    let buffered :=
      lib.lineBuffer (toLocalScaled road.line_projected origin_x origin_y scale_factor)
        road_width
    if ¬ buffered.isEmpty then iterPolygons buffered else []

/-- The water union of mesher._prepare_geometries (line 314): union the local
water polygons and clip to the print disk. -/
def waterUnionOf (waters : List WaterFeature) (base_circle : Geom)
    (origin_x origin_y scale_factor : ℚ) : Geom :=
  clipToCircle (unionGeometries (waterPolygons waters origin_x origin_y scale_factor))
    base_circle

/-- The land region of mesher._prepare_geometries (lines 315-319): the print
disk minus the water union, falling back to the disk when empty. -/
def landNoWaterOf (waters : List WaterFeature) (base_circle : Geom)
    (origin_x origin_y scale_factor : ℚ) : Geom :=
  let water_union := waterUnionOf waters base_circle origin_x origin_y scale_factor
  let land1 :=
    if water_union.isEmpty then base_circle else base_circle.difference water_union
  if land1.isEmpty then base_circle else land1

/-- The park union of mesher._prepare_geometries (line 321): union the shrunk
local park polygons and clip to the land region. -/
def parksUnionOf (lib : GeomLib) (parks : List ParkFeature)
    (waters : List WaterFeature) (base_circle : Geom)
    (origin_x origin_y scale_factor : ℚ) (settings : Settings) : Geom :=
  let park_shrink := max (settings.park_indent_shrink_m * scale_factor) 0
  clipToCircle
    (unionGeometries (parkPolygons lib parks origin_x origin_y scale_factor park_shrink))
    (landNoWaterOf waters base_circle origin_x origin_y scale_factor)

/-- The road union of mesher._prepare_geometries (line 322): union the
buffered local road lines and clip to the print disk. -/
def roadUnionOf (lib : GeomLib) (roads : List RoadFeature) (base_circle : Geom)
    (origin_x origin_y scale_factor : ℚ) (settings : Settings) : Geom :=
  let road_width := max (settings.road_indent_width_m * scale_factor) (1/1000)
  clipToCircle
    (unionGeometries (roadBuffers lib roads origin_x origin_y scale_factor road_width))
    base_circle

/-- The building-base region of mesher._prepare_geometries (lines 324-328):
the land region minus the park union, falling back to the land region when
empty. -/
def buildingBaseOf (lib : GeomLib) (parks : List ParkFeature)
    (waters : List WaterFeature) (base_circle : Geom)
    (origin_x origin_y scale_factor : ℚ) (settings : Settings) : Geom :=
  let land_no_water := landNoWaterOf waters base_circle origin_x origin_y scale_factor
  let parks_union :=
    parksUnionOf lib parks waters base_circle origin_x origin_y scale_factor settings
  let bb1 :=
    if parks_union.isEmpty then land_no_water
    else land_no_water.difference parks_union
  if bb1.isEmpty then land_no_water else bb1

/-- mesher._prepare_geometries. -/
def prepareGeometries (lib : GeomLib) (buildings : List BuildingFootprint)
    (roads : List RoadFeature) (parks : List ParkFeature)
    (waters : List WaterFeature) (circle_world base_circle : Geom)
    (origin_x origin_y scale_factor : ℚ)
    (home_building : Option BuildingFootprint) (settings : Settings) :
    Except String PreparedGeometries :=
  let acc :=
    processBuildings lib buildings circle_world origin_x origin_y scale_factor
      home_building
  if acc.building_polygons_all = [] ∧ acc.home_polygons = [] then
    .error "Unable to construct scaled footprints for this area."
  else
    let _building_union :=
      clipToCircle (unionGeometries (acc.building_polygons_all ++ acc.home_polygons))
        base_circle
    .ok
      { base_circle := base_circle
        water_union := waterUnionOf waters base_circle origin_x origin_y scale_factor
        land_no_water := landNoWaterOf waters base_circle origin_x origin_y scale_factor
        park_union :=
          parksUnionOf lib parks waters base_circle origin_x origin_y scale_factor
            settings
        building_base :=
          buildingBaseOf lib parks waters base_circle origin_x origin_y scale_factor
            settings
        road_union := roadUnionOf lib roads base_circle origin_x origin_y scale_factor settings
        building_mesh_data := acc.building_mesh_data
        building_summaries := acc.building_summaries
        home_polygons := acc.home_polygons
        home_height := acc.home_height }

/-- Python min(iterable, key) over a non-empty list: the first element whose
key is minimal. -/
def pyMinBy (key : BuildingFootprint → ℚ) :
    List BuildingFootprint → Option BuildingFootprint
  | [] => none
  | x :: xs =>
    some (xs.foldl (fun best y => if key y < key best then y else best) x)

/-- The key function of mesher._identify_home_building: distance from the
geographic centroid to the query point. -/
def homeDistance (lib : GeomLib) (point : Pt) (footprint : BuildingFootprint) : ℚ :=
  lib.distance (lib.centroid footprint.polygon_wgs84) point

/-- mesher._identify_home_building: prefer a building whose geographic polygon
contains the query point, else the building with minimal centroid distance,
else none for the empty list (Python min raises ValueError, caught as None). -/
def identifyHomeBuilding (lib : GeomLib) (buildings : List BuildingFootprint)
    (point : Pt) : Option BuildingFootprint :=
  let containing :=
    buildings.filter fun footprint => lib.containsPoint footprint.polygon_wgs84 point
  match containing with
  | c :: _ => some c
  | [] => pyMinBy (homeDistance lib point) buildings

/-- mesher._build_scene_context. -/
def buildSceneContext (lib : GeomLib) (settings : Settings) (request : ModelRequest)
    (buildings : List BuildingFootprint) (roads : List RoadFeature)
    (parks : List ParkFeature) (waters : List WaterFeature) :
    Except String SceneContext :=
  let origin := lib.projectPoint request.longitude request.latitude
  let base_radius_world : ℚ := (request.radius_meters : ℚ) + settings.base_padding_m
  let print_radius := max (settings.target_print_diameter_m / 2) (1/1000)
  let scale_factor := if base_radius_world > 0 then print_radius / base_radius_world else 1
  let circle_world := lib.bufferPoint origin ((request.radius_meters : ℚ))
  let base_circle := lib.bufferPoint (0, 0) print_radius
  let home_point : Pt := (request.longitude, request.latitude)
  let home_building := identifyHomeBuilding lib buildings home_point
  (prepareGeometries lib buildings roads parks waters circle_world base_circle
      origin.1 origin.2 scale_factor home_building settings).map
    fun prepared =>
      { settings := settings
        origin_x := origin.1
        origin_y := origin.2
        scale_factor := scale_factor
        print_radius := print_radius
        prepared := prepared }

/-- Model of one extruded solid (mesher._extrude_polygon followed by
apply_translation): the footprint polygon, the extrusion height, and the
vertical offset at which the solid sits. -/
structure Piece where
  geom : Geom
  height : ℚ
  z : ℚ
deriving DecidableEq

/-- mesher._combine_meshes: drop pieces without vertices (in the model, pieces
with an empty footprint) and fail when nothing remains. -/
def combineMeshes (meshes : List Piece) : Except String (List Piece) :=
  let filtered := meshes.filter fun mesh => mesh.geom ≠ []
  if filtered = [] then .error "Layer mesh could not be constructed."
  else .ok filtered

/-- mesher._build_water_layer. -/
def buildWaterLayer (base_circle water_union : Geom) (settings : Settings) :
    Except String (List Piece) :=
  let base_height := settings.base_thickness_m
  let meshes : List Piece := [{ geom := base_circle, height := base_height, z := 0 }]
  let meshes :=
    if ¬ water_union.isEmpty then
      meshes ++ (iterPolygons water_union).map fun polygon =>
        { geom := polygon, height := settings.base_thickness_m * 2, z := base_height }
    else meshes
  combineMeshes meshes

/-- mesher._build_green_layer. -/
def buildGreenLayer (land_geom park_union : Geom) (settings : Settings) :
    Except String (List Piece) :=
  if land_geom.isEmpty then .error "No geometry available for the green layer."
  else
    let base_height := settings.green_layer_thickness_m
    let meshes := (iterPolygons land_geom).map fun polygon =>
      { geom := polygon, height := base_height, z := (0 : ℚ) }
    let meshes :=
      if ¬ park_union.isEmpty then
        meshes ++ (iterPolygons park_union).map fun polygon =>
          { geom := polygon, height := settings.green_layer_thickness_m, z := base_height }
      else meshes
    combineMeshes meshes

/-- The building extrusions of mesher._build_building_layer (lines 539-545):
each non-home building polygon, extruded to its scaled height and translated
to sit at base_height. -/
def buildingPiecesOf (lib : GeomLib) (building_mesh_data : List (List Geom × ℚ))
    (base_height : ℚ) : List Piece :=
  building_mesh_data.flatMap fun pair =>
    pair.1.flatMap fun polygon =>
      if polygon = [] ∨ lib.area polygon = 0 then []
      else [{ geom := polygon, height := pair.2, z := base_height }]

/-- mesher._build_building_layer. -/
def buildBuildingLayer (lib : GeomLib) (building_base road_union : Geom)
    (building_mesh_data : List (List Geom × ℚ)) (home_polygons : List Geom)
    (settings : Settings) : Except String (List Piece) :=
  if building_base.isEmpty then .error "No geometry available for the building layer."
  else
    let base_geom :=
      if home_polygons ≠ [] then
        building_base.difference (unionGeometries home_polygons)
      else building_base
    let road_indent :=
      min settings.road_groove_depth_m (settings.building_layer_thickness_m * (4/5))
    let base_height := settings.building_layer_thickness_m
    let slab_height := max (base_height - road_indent) (1/2000)
    let slabMeshes := (iterPolygons base_geom).map fun polygon =>
      { geom := polygon, height := slab_height, z := (0 : ℚ) }
    let grooveMeshes :=
      if road_indent > 0 then
        let top_geom :=
          if ¬ road_union.isEmpty then base_geom.difference road_union else base_geom
        (iterPolygons top_geom).map fun polygon =>
          { geom := polygon, height := road_indent, z := slab_height }
      else []
    combineMeshes
      (slabMeshes ++ grooveMeshes ++ buildingPiecesOf lib building_mesh_data base_height)

/-- mesher._build_highlight_layer. -/
def buildHighlightLayer (polygons : List Geom) (building_height : ℚ)
    (settings : Settings) : Except String (List Piece) :=
  if polygons = [] then .error "Highlight geometry is missing."
  else
    let peg_depth := min settings.highlight_peg_depth_m settings.building_layer_thickness_m
    let meshes := polygons.flatMap fun polygon =>
      if polygon.isEmpty then []
      else
        (if peg_depth > 0 then [{ geom := polygon, height := peg_depth, z := (0 : ℚ) }]
          else []) ++
        [{ geom := polygon, height := building_height, z := peg_depth }]
    combineMeshes meshes

/-- mesher._build_layer_info. -/
def buildLayerInfo (settings : Settings) (include_highlight : Bool) : List LayerInfo :=
  let infos : List LayerInfo :=
    [{ name := "water_layer"
       thickness_m := settings.base_thickness_m
       description := "Water/base disk (thickness x) with water bodies extruded 2x to reach street level." },
     { name := "green_layer"
       thickness_m := settings.green_layer_thickness_m
       description := "Land disk (thickness x) with holes for water extrusions plus parks raised another x." },
     { name := "building_layer"
       thickness_m := settings.building_layer_thickness_m
       description := "Street disk (thickness x) with cavities for water/green extrusions and buildings rising above." }]
  if include_highlight then
    infos ++
      [{ name := "highlight_layer"
         thickness_m := settings.building_layer_thickness_m
         description := "Removable home building with a base that keys into the cavity on the buildings layer." }]
  else infos

/-- Python truthiness of the optional home height (None and 0.0 are falsy). -/
def qTruthy : Option ℚ → Bool
  | none => false
  | some h => h ≠ 0

/-- Model of the archive returned by mesher.build_model_archive: the file
name, the member paths written into the zip, the per-layer solids, and the
metadata. -/
structure ArchiveResult where
  filename : String
  entries : List String
  layers : List (String × List Piece)
  metadata : ModelMetadata
deriving DecidableEq

/-- mesher.build_model_archive. -/
def buildModelArchive (lib : GeomLib) (settings : Settings) (request : ModelRequest)
    (buildings : List BuildingFootprint) (roads : List RoadFeature)
    (parks : List ParkFeature) (waters : List WaterFeature) :
    Except String ArchiveResult := do
  if buildings = [] then
    throw "No buildings were found for the requested area."
  let context ← buildSceneContext lib settings request buildings roads parks waters
  let prepared := context.prepared
  let scale_factor := context.scale_factor
  let water_mesh ← buildWaterLayer prepared.base_circle prepared.water_union settings
  let green_mesh ← buildGreenLayer prepared.land_no_water prepared.park_union settings
  let building_mesh ←
    buildBuildingLayer lib prepared.building_base prepared.road_union
      prepared.building_mesh_data
      (if request.highlight_home ∧ prepared.home_polygons ≠ [] then
          prepared.home_polygons
        else [])
      settings
  let layer_meshes : List (String × List Piece) :=
    [("water_layer", water_mesh), ("green_layer", green_mesh),
     ("building_layer", building_mesh)]
  let highlightWanted :=
    request.highlight_home ∧ settings.highlight_enabled = true ∧
      prepared.home_polygons ≠ [] ∧ qTruthy prepared.home_height
  let layer_meshes ←
    if highlightWanted then do
      let highlight_mesh ←
        buildHighlightLayer prepared.home_polygons (prepared.home_height.getD 0)
          settings
      pure (layer_meshes ++ [("highlight_layer", highlight_mesh)])
    else pure layer_meshes
  let highlighted := decide highlightWanted
  let layer_infos := buildLayerInfo settings highlighted
  let metadata : ModelMetadata :=
    { building_count := prepared.building_summaries.length
      radius_meters := request.radius_meters
      highlighted := highlighted
      formats := request.formats
      origin := (context.origin_x, context.origin_y)
      scale_ratio := scale_factor
      layers := layer_infos
      buildings := prepared.building_summaries }
  let entries :=
    (request.formats.flatMap fun fmt =>
      layer_meshes.map fun pair => "layers/" ++ pair.1 ++ "." ++ fmt) ++
    ["metadata.json"]
  pure
    { filename := "print3dhood_" ++ toString request.radius_meters ++ "m_layers.zip"
      entries := entries
      layers := layer_meshes
      metadata := metadata }

/-- mesher._create_layer_previews. -/
def createLayerPreviews (prepared : PreparedGeometries) (print_radius : ℚ)
    (settings : Settings) : List LayerPreview :=
  let base : List LayerPreview :=
    [{ name := "water_layer"
       thickness_m := settings.base_thickness_m
       base_color := "#bfdbfe"
       feature_color := "#1d4ed8"
       description := "Water/base disk (thickness x) with water bodies extruded 2x to reach street level."
       base_paths := geometryToPaths prepared.base_circle print_radius
       feature_paths := geometryToPaths prepared.water_union print_radius },
     { name := "green_layer"
       thickness_m := settings.green_layer_thickness_m
       base_color := "#dcfce7"
       feature_color := "#16a34a"
       description := "Land disk (thickness x) with holes for water extrusions plus parks raised another x."
       base_paths := geometryToPaths prepared.land_no_water print_radius
       feature_paths := geometryToPaths prepared.park_union print_radius },
     { name := "building_layer"
       thickness_m := settings.building_layer_thickness_m
       base_color := "#e5e7eb"
       feature_color := "#111827"
       overlay_color := some "#d1d5db"
       description := "Street disk (thickness x) with cavities for water/green extrusions and buildings rising above."
       base_paths := geometryToPaths prepared.building_base print_radius
       feature_paths :=
         geometryToPaths
           (unionGeometries (prepared.building_mesh_data.flatMap fun pair => pair.1))
           print_radius
       overlay_paths := geometryToPaths prepared.road_union print_radius }]
  if prepared.home_polygons ≠ [] then
    base ++
      [{ name := "highlight_layer"
         thickness_m := settings.building_layer_thickness_m
         base_color := "#fed7aa"
         feature_color := "#f97316"
         description := "Removable home building with a base that keys into the cavity on the buildings layer."
         base_paths :=
           geometryToPaths (unionGeometries prepared.home_polygons) print_radius }]
  else base

/-- mesher.generate_preview_data. -/
def generatePreviewData (lib : GeomLib) (settings : Settings) (request : ModelRequest)
    (buildings : List BuildingFootprint) (roads : List RoadFeature)
    (parks : List ParkFeature) (waters : List WaterFeature) :
    Except String (ModelMetadata × List LayerPreview) := do
  if buildings = [] then
    throw "No buildings were found for the requested area."
  let context ← buildSceneContext lib settings request buildings roads parks waters
  let prepared := context.prepared
  let layer_infos := buildLayerInfo settings (prepared.home_polygons ≠ [])
  let metadata : ModelMetadata :=
    { building_count := prepared.building_summaries.length
      radius_meters := request.radius_meters
      highlighted := decide (prepared.home_polygons ≠ [])
      formats := ["stl"]
      origin := (context.origin_x, context.origin_y)
      scale_ratio := context.scale_factor
      layers := layer_infos
      buildings := prepared.building_summaries }
  let previews := createLayerPreviews prepared context.print_radius settings
  return (metadata, previews)

/-! ## Basic lemmas about the geometry model -/

theorem isEmpty_eq (g : Geom) : (g.isEmpty = true) = (g = []) := by
  simp [Geom.isEmpty]

theorem difference_nil (g : Geom) : g.difference [] = g := by
  simp [Geom.difference]

theorem mem_difference {g h : Geom} {p : Pt} (hp : p ∈ g.difference h) : p ∈ g := by
  simpa [Geom.difference] using (List.mem_filter.mp hp).1

theorem mem_intersection {g h : Geom} {p : Pt} (hp : p ∈ g.intersection h) :
    p ∈ g ∧ p ∈ h := by
  have h1 := List.mem_filter.mp hp
  exact ⟨h1.1, by simpa using h1.2⟩

theorem mem_clipToCircle {g c : Geom} {p : Pt} (hp : p ∈ clipToCircle g c) :
    p ∈ g ∧ p ∈ c := by
  unfold clipToCircle at hp
  split at hp
  · simp at hp
  · exact mem_intersection hp

theorem mem_unionGeometries {gs : List Geom} {p : Pt}
    (hp : p ∈ unionGeometries gs) : ∃ g ∈ gs, p ∈ g := by
  unfold unionGeometries at hp
  induction gs with
  | nil => simp at hp
  | cons g gs ih =>
    by_cases hg : g = []
    · simp only [List.filter_cons, hg] at hp
      simp only [decide_not, decide_eq_true_eq] at hp ⊢
      rcases ih (by simpa [hg] using hp) with ⟨g2, hg2, hpg2⟩
      exact ⟨g2, .tail _ hg2, hpg2⟩
    · simp only [List.filter_cons, if_pos (by simpa using hg : (decide ¬g = []) = true),
        List.foldr_cons] at hp
      rcases List.mem_append.mp hp with hpg | hrest
      · exact ⟨g, .head _, hpg⟩
      · rcases ih hrest with ⟨g2, hg2, hpg2⟩
        exact ⟨g2, .tail _ hg2, hpg2⟩

theorem toLocalScaled_eq_nil_iff (g : Geom) (ox oy s : ℚ) :
    toLocalScaled g ox oy s = [] ↔ g = [] := by
  simp [toLocalScaled]

/-! ## C8: point normalization for previews -/

/-- C8: for every point (x, y) and print radius r > 0 the normalized point is
((x+r)/(2r), 1 - (y+r)/(2r)), the vertical axis flipped; for r = 0 every
point maps to (0, 0) instead of dividing by zero. -/
theorem C8_normalize_point (x y r : ℚ) :
    (0 < r →
      normalizePoint x y r = ((x + r) / (2 * r), 1 - ((y + r) / (2 * r)))) ∧
    normalizePoint x y 0 = (0, 0) := by
  constructor
  · intro hr
    simp [normalizePoint, ne_of_gt hr]
  · simp [normalizePoint]

/-- Witness for C8 at x = 1, y = 3, r = 2. -/
theorem C8_normalize_point_witness :
    normalizePoint 1 3 2 = ((1 + 2) / (2 * 2), 1 - ((3 + 2) / (2 * 2))) ∧
      normalizePoint 1 3 0 = (0, 0) :=
  ⟨(C8_normalize_point 1 3 2).1 (by norm_num), (C8_normalize_point 1 3 0).2⟩

/-! ## C2: home-building selection -/

/-- Python min picks the first element whose key is minimal. -/
theorem foldlMin_spec (key : BuildingFootprint → ℚ) (xs : List BuildingFootprint) :
    ∀ x : BuildingFootprint,
      (xs.foldl (fun best y => if key y < key best then y else best) x) ∈ x :: xs ∧
      key (xs.foldl (fun best y => if key y < key best then y else best) x) ≤ key x ∧
      ∀ y ∈ xs,
        key (xs.foldl (fun best y => if key y < key best then y else best) x) ≤ key y := by
  induction xs with
  | nil => intro x; simp
  | cons y ys ih =>
    intro x
    simp only [List.foldl_cons]
    by_cases h : key y < key x
    · simp only [if_pos h]
      obtain ⟨hmem, hle, hall⟩ := ih y
      refine ⟨?_, le_trans hle (le_of_lt h), ?_⟩
      · rcases List.mem_cons.mp hmem with h1 | h1
        · exact List.mem_cons.mpr (Or.inr (List.mem_cons.mpr (Or.inl h1)))
        · exact List.mem_cons.mpr (Or.inr (List.mem_cons.mpr (Or.inr h1)))
      · intro z hz
        rcases List.mem_cons.mp hz with h1 | h1
        · rw [h1]; exact hle
        · exact hall z h1
    · simp only [if_neg h]
      obtain ⟨hmem, hle, hall⟩ := ih x
      refine ⟨?_, hle, ?_⟩
      · rcases List.mem_cons.mp hmem with h1 | h1
        · exact List.mem_cons.mpr (Or.inl h1)
        · exact List.mem_cons.mpr (Or.inr (List.mem_cons.mpr (Or.inr h1)))
      · intro z hz
        rcases List.mem_cons.mp hz with h1 | h1
        · rw [h1]; exact le_trans hle (not_lt.mp h)
        · exact hall z h1

theorem pyMinBy_spec (key : BuildingFootprint → ℚ) (x : BuildingFootprint)
    (xs : List BuildingFootprint) :
    ∃ b, pyMinBy key (x :: xs) = some b ∧ b ∈ x :: xs ∧
      ∀ b2 ∈ x :: xs, key b ≤ key b2 := by
  obtain ⟨hmem, hle, hall⟩ := foldlMin_spec key xs x
  refine ⟨_, rfl, hmem, ?_⟩
  intro b2 hb2
  rcases List.mem_cons.mp hb2 with h1 | h1
  · exact h1 ▸ hle
  · exact hall b2 h1

theorem processBuilding_home_none (lib : GeomLib) (cw : Geom) (ox oy s : ℚ)
    (acc : BuildingAcc) (f : BuildingFootprint) :
    (processBuilding lib cw ox oy s none acc f).home_polygons = acc.home_polygons ∧
    (processBuilding lib cw ox oy s none acc f).home_height = acc.home_height := by
  simp only [processBuilding, isHomeMatch]
  split
  · exact ⟨rfl, rfl⟩
  · split
    · exact ⟨rfl, rfl⟩
    · exact ⟨rfl, rfl⟩

theorem processBuildings_home_none (lib : GeomLib)
    (buildings : List BuildingFootprint) (cw : Geom) (ox oy s : ℚ) :
    (processBuildings lib buildings cw ox oy s none).home_polygons = [] ∧
    (processBuildings lib buildings cw ox oy s none).home_height = none := by
  unfold processBuildings
  suffices h : ∀ (bs : List BuildingFootprint) (acc : BuildingAcc),
      (bs.foldl (processBuilding lib cw ox oy s none) acc).home_polygons =
        acc.home_polygons ∧
      (bs.foldl (processBuilding lib cw ox oy s none) acc).home_height =
        acc.home_height by
    exact h buildings {}
  intro bs
  induction bs with
  | nil => intro acc; exact ⟨rfl, rfl⟩
  | cons f fs ih =>
    intro acc
    simp only [List.foldl_cons]
    obtain ⟨h1, h2⟩ := ih (processBuilding lib cw ox oy s none acc f)
    obtain ⟨h3, h4⟩ := processBuilding_home_none lib cw ox oy s acc f
    exact ⟨h1.trans h3, h2.trans h4⟩

/-- C2: if some building geographically contains the query point, a containing
building is chosen regardless of centroid distances; otherwise the building
with minimal centroid distance (the first such, as Python min) is chosen; for
the empty list the selection returns none, and a prepared scene without a
home building has no home polygons, so highlighting is skipped. -/
theorem C2_identify_home_building (lib : GeomLib)
    (buildings : List BuildingFootprint) (point : Pt) :
    (buildings = [] → identifyHomeBuilding lib buildings point = none) ∧
    ((∃ b ∈ buildings, lib.containsPoint b.polygon_wgs84 point = true) →
      ∃ b, identifyHomeBuilding lib buildings point = some b ∧ b ∈ buildings ∧
        lib.containsPoint b.polygon_wgs84 point = true) ∧
    ((∀ b ∈ buildings, lib.containsPoint b.polygon_wgs84 point = false) →
      buildings ≠ [] →
      ∃ b, identifyHomeBuilding lib buildings point = some b ∧ b ∈ buildings ∧
        ∀ b2 ∈ buildings, homeDistance lib point b ≤ homeDistance lib point b2) ∧
    (∀ (roads : List RoadFeature) (parks : List ParkFeature)
        (waters : List WaterFeature) (cw bc : Geom) (ox oy s : ℚ)
        (settings : Settings) (prep : PreparedGeometries),
      prepareGeometries lib buildings roads parks waters cw bc ox oy s none
          settings = .ok prep →
      prep.home_polygons = [] ∧ prep.home_height = none) := by
  refine ⟨?_, ?_, ?_, ?_⟩
  · rintro rfl
    rfl
  · intro hex
    unfold identifyHomeBuilding
    rcases hfil : buildings.filter
        (fun footprint => lib.containsPoint footprint.polygon_wgs84 point) with
        _ | ⟨c, rest⟩
    · exfalso
      obtain ⟨b, hb, hcont⟩ := hex
      have := List.filter_eq_nil_iff.mp hfil b hb
      simp [hcont] at this
    · have hc : c ∈ buildings.filter
          (fun footprint => lib.containsPoint footprint.polygon_wgs84 point) := by
        rw [hfil]; exact List.mem_cons_self _ _
      have hc2 := List.mem_filter.mp hc
      exact ⟨c, by rw [hfil], hc2.1, hc2.2⟩
  · intro hnone hne
    unfold identifyHomeBuilding
    have hfil : buildings.filter
        (fun footprint => lib.containsPoint footprint.polygon_wgs84 point) = [] := by
      apply List.filter_eq_nil_iff.mpr
      intro b hb
      simp [hnone b hb]
    rw [hfil]
    rcases buildings with _ | ⟨x, xs⟩
    · exact absurd rfl hne
    · exact pyMinBy_spec (homeDistance lib point) x xs
  · intro roads parks waters cw bc ox oy s settings prep hok
    obtain ⟨h1, h2⟩ := processBuildings_home_none lib buildings cw ox oy s
    simp only [prepareGeometries] at hok
    split at hok
    · exact absurd hok (by simp)
    · rw [Except.ok.injEq] at hok
      subst hok
      exact ⟨h1, h2⟩

/-! ## C5 and C6: land, park and building-base regions -/

theorem prepareGeometries_ok_eq (lib : GeomLib) (buildings : List BuildingFootprint)
    (roads : List RoadFeature) (parks : List ParkFeature) (waters : List WaterFeature)
    (cw bc : Geom) (ox oy s : ℚ) (hb : Option BuildingFootprint) (st : Settings)
    (prep : PreparedGeometries)
    (h : prepareGeometries lib buildings roads parks waters cw bc ox oy s hb st =
      .ok prep) :
    prep =
      { base_circle := bc
        water_union := waterUnionOf waters bc ox oy s
        land_no_water := landNoWaterOf waters bc ox oy s
        park_union := parksUnionOf lib parks waters bc ox oy s st
        building_base := buildingBaseOf lib parks waters bc ox oy s st
        road_union := roadUnionOf lib roads bc ox oy s st
        building_mesh_data := (processBuildings lib buildings cw ox oy s hb).building_mesh_data
        building_summaries := (processBuildings lib buildings cw ox oy s hb).building_summaries
        home_polygons := (processBuildings lib buildings cw ox oy s hb).home_polygons
        home_height := (processBuildings lib buildings cw ox oy s hb).home_height } := by
  simp only [prepareGeometries] at h
  split at h
  · exact absurd h (by simp)
  · rw [Except.ok.injEq] at h
    exact h.symm

theorem landNoWaterOf_eq (waters : List WaterFeature) (bc : Geom) (ox oy s : ℚ) :
    landNoWaterOf waters bc ox oy s =
      (if bc.difference (waterUnionOf waters bc ox oy s) = [] then bc
       else bc.difference (waterUnionOf waters bc ox oy s)) := by
  unfold landNoWaterOf
  by_cases hW : waterUnionOf waters bc ox oy s = []
  · simp [hW, Geom.isEmpty, difference_nil]
  · simp [Geom.isEmpty, hW]

theorem buildingBaseOf_eq (lib : GeomLib) (parks : List ParkFeature)
    (waters : List WaterFeature) (bc : Geom) (ox oy s : ℚ) (st : Settings) :
    buildingBaseOf lib parks waters bc ox oy s st =
      (if (landNoWaterOf waters bc ox oy s).difference
            (parksUnionOf lib parks waters bc ox oy s st) = [] then
          landNoWaterOf waters bc ox oy s
        else
          (landNoWaterOf waters bc ox oy s).difference
            (parksUnionOf lib parks waters bc ox oy s st)) := by
  unfold buildingBaseOf
  by_cases hP : parksUnionOf lib parks waters bc ox oy s st = []
  · simp [hP, Geom.isEmpty, difference_nil]
  · simp [Geom.isEmpty, hP]

theorem landNoWaterOf_ne_nil (waters : List WaterFeature) (bc : Geom) (ox oy s : ℚ)
    (hbc : bc ≠ []) : landNoWaterOf waters bc ox oy s ≠ [] := by
  rw [landNoWaterOf_eq]
  split
  · exact hbc
  · assumption

theorem buildingBaseOf_ne_nil (lib : GeomLib) (parks : List ParkFeature)
    (waters : List WaterFeature) (bc : Geom) (ox oy s : ℚ) (st : Settings)
    (hbc : bc ≠ []) : buildingBaseOf lib parks waters bc ox oy s st ≠ [] := by
  rw [buildingBaseOf_eq]
  split
  · exact landNoWaterOf_ne_nil waters bc ox oy s hbc
  · assumption

/-- C5: in every prepared scene, the land region equals the print disk minus
the water union, falling back to the unclipped disk when the difference is
empty; the building-base region equals the land region minus the park union
with the same fallback; and when the print disk is non-empty neither region is
ever void. -/
theorem C5_land_and_building_base_fallback (lib : GeomLib)
    (buildings : List BuildingFootprint) (roads : List RoadFeature)
    (parks : List ParkFeature) (waters : List WaterFeature) (cw bc : Geom)
    (ox oy s : ℚ) (hb : Option BuildingFootprint) (st : Settings)
    (prep : PreparedGeometries)
    (h : prepareGeometries lib buildings roads parks waters cw bc ox oy s hb st =
      .ok prep) :
    (prep.land_no_water =
      if prep.base_circle.difference prep.water_union = [] then prep.base_circle
      else prep.base_circle.difference prep.water_union) ∧
    (prep.building_base =
      if prep.land_no_water.difference prep.park_union = [] then prep.land_no_water
      else prep.land_no_water.difference prep.park_union) ∧
    (prep.base_circle ≠ [] → prep.land_no_water ≠ [] ∧ prep.building_base ≠ []) := by
  have he := prepareGeometries_ok_eq lib buildings roads parks waters cw bc ox oy s
    hb st prep h
  subst he
  refine ⟨landNoWaterOf_eq waters bc ox oy s, buildingBaseOf_eq lib parks waters bc ox oy s st, ?_⟩
  intro hbc
  exact ⟨landNoWaterOf_ne_nil waters bc ox oy s hbc,
    buildingBaseOf_ne_nil lib parks waters bc ox oy s st hbc⟩

/-- C6: in every prepared scene the park union is clipped to the land region,
so it is contained in the land region of the same PreparedGeometries. -/
theorem C6_park_union_within_land (lib : GeomLib)
    (buildings : List BuildingFootprint) (roads : List RoadFeature)
    (parks : List ParkFeature) (waters : List WaterFeature) (cw bc : Geom)
    (ox oy s : ℚ) (hb : Option BuildingFootprint) (st : Settings)
    (prep : PreparedGeometries)
    (h : prepareGeometries lib buildings roads parks waters cw bc ox oy s hb st =
      .ok prep) :
    ∀ p ∈ prep.park_union, p ∈ prep.land_no_water := by
  have he := prepareGeometries_ok_eq lib buildings roads parks waters cw bc ox oy s
    hb st prep h
  subst he
  intro p hp
  exact (mem_clipToCircle hp).2

/-! ## C4: the one fatal scene-construction condition -/

theorem processBuilding_skip (lib : GeomLib) (cw : Geom) (ox oy s : ℚ)
    (hb : Option BuildingFootprint) (acc : BuildingAcc) (f : BuildingFootprint)
    (h : f.polygon_projected.intersection cw = []) :
    processBuilding lib cw ox oy s hb acc f = acc := by
  simp [processBuilding, h]

theorem processBuilding_all (lib : GeomLib) (cw : Geom) (ox oy s : ℚ)
    (hb : Option BuildingFootprint) (acc : BuildingAcc) (f : BuildingFootprint) :
    ∃ t, (processBuilding lib cw ox oy s hb acc f).building_polygons_all =
        acc.building_polygons_all ++ t ∧
      (t = [] ↔ f.polygon_projected.intersection cw = []) := by
  by_cases hc : f.polygon_projected.intersection cw = []
  · exact ⟨[], by simp [processBuilding_skip lib cw ox oy s hb acc f hc], by simp [hc]⟩
  · have hl : toLocalScaled (f.polygon_projected.intersection cw) ox oy s ≠ [] := by
      simpa [toLocalScaled_eq_nil_iff] using hc
    have hpolys :
        (iterPolygons (toLocalScaled (f.polygon_projected.intersection cw) ox oy s)).filter
            (fun poly => poly ≠ []) =
          [toLocalScaled (f.polygon_projected.intersection cw) ox oy s] := by
      simp [iterPolygons, hl]
    refine ⟨[toLocalScaled (f.polygon_projected.intersection cw) ox oy s], ?_,
      by simp [hc]⟩
    simp only [processBuilding]
    rw [if_neg hc, hpolys, if_neg (List.cons_ne_nil _ _)]
    split <;> rfl

theorem foldl_all_mono (lib : GeomLib) (cw : Geom) (ox oy s : ℚ)
    (hb : Option BuildingFootprint) (bs : List BuildingFootprint) :
    ∀ acc : BuildingAcc,
      ∃ t, (bs.foldl (processBuilding lib cw ox oy s hb) acc).building_polygons_all =
        acc.building_polygons_all ++ t := by
  induction bs with
  | nil => intro acc; exact ⟨[], by simp⟩
  | cons f fs ih =>
    intro acc
    simp only [List.foldl_cons]
    obtain ⟨t1, h1, _⟩ := processBuilding_all lib cw ox oy s hb acc f
    obtain ⟨t2, h2⟩ := ih (processBuilding lib cw ox oy s hb acc f)
    exact ⟨t1 ++ t2, by rw [h2, h1, List.append_assoc]⟩

theorem foldl_all_ne (lib : GeomLib) (cw : Geom) (ox oy s : ℚ)
    (hb : Option BuildingFootprint) (bs : List BuildingFootprint) :
    ∀ (acc : BuildingAcc) (f : BuildingFootprint), f ∈ bs →
      f.polygon_projected.intersection cw ≠ [] →
      (bs.foldl (processBuilding lib cw ox oy s hb) acc).building_polygons_all ≠ [] := by
  induction bs with
  | nil => intro acc f hf; exact absurd hf (List.not_mem_nil f)
  | cons g gs ih =>
    intro acc f hf hne
    simp only [List.foldl_cons]
    rcases List.mem_cons.mp hf with h1 | h1
    · obtain ⟨t1, ha, hiff⟩ := processBuilding_all lib cw ox oy s hb acc g
      have ht1 : t1 ≠ [] := fun hnil => hne (h1 ▸ hiff.mp hnil)
      obtain ⟨t2, h2⟩ := foldl_all_mono lib cw ox oy s hb gs
        (processBuilding lib cw ox oy s hb acc g)
      rw [h2, ha, List.append_assoc]
      intro hcontra
      rcases List.append_eq_nil.mp hcontra with ⟨_, hts⟩
      exact ht1 (List.append_eq_nil.mp hts).1
    · exact ih (processBuilding lib cw ox oy s hb acc g) f h1 hne

theorem processBuildings_skip_all (lib : GeomLib) (cw : Geom) (ox oy s : ℚ)
    (hb : Option BuildingFootprint) (bs : List BuildingFootprint) :
    ∀ acc : BuildingAcc, (∀ f ∈ bs, f.polygon_projected.intersection cw = []) →
      bs.foldl (processBuilding lib cw ox oy s hb) acc = acc := by
  induction bs with
  | nil => intro acc _; rfl
  | cons f fs ih =>
    intro acc hall
    simp only [List.foldl_cons]
    rw [processBuilding_skip lib cw ox oy s hb acc f (hall f (List.mem_cons_self f fs))]
    exact ih acc fun g hg => hall g (List.mem_cons_of_mem f hg)

theorem processBuildings_empty_iff (lib : GeomLib)
    (buildings : List BuildingFootprint) (cw : Geom) (ox oy s : ℚ)
    (hb : Option BuildingFootprint) :
    ((processBuildings lib buildings cw ox oy s hb).building_polygons_all = [] ∧
      (processBuildings lib buildings cw ox oy s hb).home_polygons = []) ↔
    ∀ f ∈ buildings, f.polygon_projected.intersection cw = [] := by
  constructor
  · intro hempty
    by_contra hcon
    push_neg at hcon
    obtain ⟨f, hf, hne⟩ := hcon
    exact foldl_all_ne lib cw ox oy s hb buildings {} f hf hne hempty.1
  · intro hall
    unfold processBuildings
    rw [processBuildings_skip_all lib cw ox oy s hb buildings {} hall]
    exact ⟨rfl, rfl⟩

/-- C4: scene construction fails exactly when no building footprint survives
the clip to the world circle and the translate-and-scale into the local frame
(neither ordinary nor home buildings produce any polygon); the condition does
not depend on parks, waters or roads; and a scene-construction error aborts
both the archive build and the preview, which then return the same error. -/
theorem C4_abort_exactly_when_no_buildings (lib : GeomLib)
    (buildings : List BuildingFootprint) (roads : List RoadFeature)
    (parks : List ParkFeature) (waters : List WaterFeature) (cw bc : Geom)
    (ox oy s : ℚ) (hb : Option BuildingFootprint) (st : Settings) :
    ((∃ e, prepareGeometries lib buildings roads parks waters cw bc ox oy s hb st =
        .error e) ↔
      ∀ f ∈ buildings, f.polygon_projected.intersection cw = []) ∧
    (∀ (settings : Settings) (request : ModelRequest) (e : String),
      buildings ≠ [] →
      buildSceneContext lib settings request buildings roads parks waters = .error e →
      buildModelArchive lib settings request buildings roads parks waters = .error e ∧
      generatePreviewData lib settings request buildings roads parks waters = .error e) := by
  constructor
  · constructor
    · rintro ⟨e, he⟩
      simp only [prepareGeometries] at he
      split at he
      · exact (processBuildings_empty_iff lib buildings cw ox oy s hb).mp
          (by assumption)
      · exact absurd he (by simp)
    · intro hall
      refine ⟨"Unable to construct scaled footprints for this area.", ?_⟩
      simp only [prepareGeometries]
      rw [if_pos ((processBuildings_empty_iff lib buildings cw ox oy s hb).mpr hall)]
  · intro settings request e hne hctx
    constructor
    · simp only [buildModelArchive, if_neg hne, hctx]
      rfl
    · simp only [generatePreviewData, if_neg hne, hctx]
      rfl

/-! ## C1: the scale factor -/

theorem exceptMap_eq_ok {α β ε : Type} {f : α → β} {x : Except ε α} {b : β}
    (h : Except.map f x = .ok b) : ∃ a, x = .ok a ∧ b = f a := by
  cases x with
  | error e => simp [Except.map] at h
  | ok a =>
    refine ⟨a, rfl, ?_⟩
    simp only [Except.map] at h
    exact (Except.ok.injEq _ _ ▸ h).symm

/-- C1: whenever scene construction succeeds (and the configured print
diameter is at least the 1 mm floor and the padded radius is positive), the
scale factor equals (target_print_diameter/2) / (radius_meters +
base_padding_m) exactly, and this single factor is the one handed to the
geometry preparation that maps every building, park, water and road polygon
into local output space. -/
theorem C1_scale_factor (lib : GeomLib) (settings : Settings)
    (request : ModelRequest) (buildings : List BuildingFootprint)
    (roads : List RoadFeature) (parks : List ParkFeature)
    (waters : List WaterFeature) (ctx : SceneContext)
    (hd : 1/1000 ≤ settings.target_print_diameter_m / 2)
    (hr : 0 < (request.radius_meters : ℚ) + settings.base_padding_m)
    (hctx : buildSceneContext lib settings request buildings roads parks waters =
      .ok ctx) :
    ctx.scale_factor =
      (settings.target_print_diameter_m / 2) /
        ((request.radius_meters : ℚ) + settings.base_padding_m) ∧
    prepareGeometries lib buildings roads parks waters
      (lib.bufferPoint (lib.projectPoint request.longitude request.latitude)
        ((request.radius_meters : ℚ)))
      (lib.bufferPoint (0, 0) (max (settings.target_print_diameter_m / 2) (1/1000)))
      (lib.projectPoint request.longitude request.latitude).1
      (lib.projectPoint request.longitude request.latitude).2
      ctx.scale_factor
      (identifyHomeBuilding lib buildings (request.longitude, request.latitude))
      settings = .ok ctx.prepared := by
  simp only [buildSceneContext] at hctx
  obtain ⟨prep, hP, hc⟩ := exceptMap_eq_ok hctx
  subst hc
  dsimp only
  rw [if_pos hr, max_eq_left hd]
  rw [if_pos hr, max_eq_left hd] at hP
  exact ⟨rfl, hP⟩

/-! ## C3: building-layer thickness stacking -/

theorem combineMeshes_ok_mem {ms pieces : List Piece} {piece : Piece}
    (h : combineMeshes ms = .ok pieces) (hm : piece ∈ ms) (hg : piece.geom ≠ []) :
    piece ∈ pieces := by
  simp only [combineMeshes] at h
  split at h
  · exact absurd h (by simp)
  · rw [Except.ok.injEq] at h
    subst h
    exact List.mem_filter.mpr ⟨hm, by simpa using hg⟩

theorem buildingPiecesOf_mem (lib : GeomLib) (bmd : List (List Geom × ℚ)) (bh : ℚ) :
    ∀ piece ∈ buildingPiecesOf lib bmd bh, piece.z = bh ∧ piece.geom ≠ [] := by
  intro piece hp
  simp only [buildingPiecesOf, List.mem_flatMap] at hp
  obtain ⟨pair, _, polygon, _, hmem⟩ := hp
  split at hmem
  · simp at hmem
  · rename_i hguard
    push_neg at hguard
    simp only [List.mem_singleton] at hmem
    subst hmem
    exact ⟨rfl, hguard.1⟩

/-- C3: the road-groove depth used by the building layer is
min(road_groove_depth_m, 0.8 × building_layer_thickness_m); whenever the
0.5 mm slab floor is not binding, the groove-reduced slab height plus the
groove depth equals the configured building layer thickness; and every
non-home building extrusion of a successfully built layer is translated to
sit at exactly the full layer thickness, independently of the groove. -/
theorem C3_thickness_stacking (lib : GeomLib) (building_base road_union : Geom)
    (bmd : List (List Geom × ℚ)) (home : List Geom) (settings : Settings)
    (pieces : List Piece)
    (hok : buildBuildingLayer lib building_base road_union bmd home settings =
      .ok pieces)
    (hfloor : 1/2000 ≤ settings.building_layer_thickness_m -
      min settings.road_groove_depth_m (settings.building_layer_thickness_m * (4/5))) :
    max (settings.building_layer_thickness_m -
        min settings.road_groove_depth_m (settings.building_layer_thickness_m * (4/5)))
      (1/2000) +
      min settings.road_groove_depth_m (settings.building_layer_thickness_m * (4/5)) =
      settings.building_layer_thickness_m ∧
    ∀ piece ∈ buildingPiecesOf lib bmd settings.building_layer_thickness_m,
      piece.z = settings.building_layer_thickness_m ∧ piece ∈ pieces := by
  constructor
  · rw [max_eq_left hfloor]
    ring
  · intro piece hp
    obtain ⟨hz, hgeom⟩ := buildingPiecesOf_mem lib bmd _ piece hp
    refine ⟨hz, ?_⟩
    simp only [buildBuildingLayer] at hok
    split at hok
    · exact absurd hok (by simp)
    · exact combineMeshes_ok_mem hok (List.mem_append.mpr (Or.inr hp)) hgeom

/-! ## C7: normalized preview coordinates lie in the unit square -/

/-- Squared Euclidean distance between two points. -/
def sqDist (p q : Pt) : ℚ := (p.1 - q.1)^2 + (p.2 - q.2)^2

/-- Every coordinate of the geometry lies within distance r of the centre c
(stated with squared distances to stay in ℚ). -/
def InDisk (c : Pt) (r : ℚ) (g : Geom) : Prop := ∀ p ∈ g, sqDist p c ≤ r^2

/-- A normalized preview coordinate inside the unit square. -/
def inUnitSquare (q : Pt) : Prop := 0 ≤ q.1 ∧ q.1 ≤ 1 ∧ 0 ≤ q.2 ∧ q.2 ≤ 1

theorem inDisk_of_subset {c : Pt} {r : ℚ} {g h : Geom}
    (hsub : ∀ p ∈ g, p ∈ h) (hh : InDisk c r h) : InDisk c r g :=
  fun p hp => hh p (hsub p hp)

theorem inDisk_clipToCircle {c : Pt} {r : ℚ} {g circle : Geom}
    (hc : InDisk c r circle) : InDisk c r (clipToCircle g circle) :=
  fun p hp => hc p (mem_clipToCircle hp).2

theorem inDisk_difference {c : Pt} {r : ℚ} {g h : Geom} (hg : InDisk c r g) :
    InDisk c r (g.difference h) :=
  fun p hp => hg p (mem_difference hp)

theorem inDisk_unionGeometries {c : Pt} {r : ℚ} {gs : List Geom}
    (hall : ∀ g ∈ gs, InDisk c r g) : InDisk c r (unionGeometries gs) := by
  intro p hp
  obtain ⟨g, hg, hpg⟩ := mem_unionGeometries hp
  exact hall g hg p hpg

theorem inDisk_landNoWaterOf {c : Pt} {r : ℚ} (waters : List WaterFeature)
    (bc : Geom) (ox oy s : ℚ) (hbc : InDisk c r bc) :
    InDisk c r (landNoWaterOf waters bc ox oy s) := by
  rw [landNoWaterOf_eq]
  split
  · exact hbc
  · exact inDisk_difference hbc

theorem inDisk_waterUnionOf {c : Pt} {r : ℚ} (waters : List WaterFeature)
    (bc : Geom) (ox oy s : ℚ) (hbc : InDisk c r bc) :
    InDisk c r (waterUnionOf waters bc ox oy s) :=
  inDisk_clipToCircle hbc

theorem inDisk_parksUnionOf {c : Pt} {r : ℚ} (lib : GeomLib)
    (parks : List ParkFeature) (waters : List WaterFeature) (bc : Geom)
    (ox oy s : ℚ) (st : Settings) (hbc : InDisk c r bc) :
    InDisk c r (parksUnionOf lib parks waters bc ox oy s st) :=
  inDisk_clipToCircle (inDisk_landNoWaterOf waters bc ox oy s hbc)

theorem inDisk_roadUnionOf {c : Pt} {r : ℚ} (lib : GeomLib)
    (roads : List RoadFeature) (bc : Geom) (ox oy s : ℚ) (st : Settings)
    (hbc : InDisk c r bc) : InDisk c r (roadUnionOf lib roads bc ox oy s st) :=
  inDisk_clipToCircle hbc

theorem inDisk_buildingBaseOf {c : Pt} {r : ℚ} (lib : GeomLib)
    (parks : List ParkFeature) (waters : List WaterFeature) (bc : Geom)
    (ox oy s : ℚ) (st : Settings) (hbc : InDisk c r bc) :
    InDisk c r (buildingBaseOf lib parks waters bc ox oy s st) := by
  rw [buildingBaseOf_eq]
  split
  · exact inDisk_landNoWaterOf waters bc ox oy s hbc
  · exact inDisk_difference (inDisk_landNoWaterOf waters bc ox oy s hbc)

theorem inDisk_toLocalScaled {g : Geom} {R ox oy s pr : ℚ}
    (hg : InDisk (ox, oy) R g) (hs : 0 ≤ s) (hR : 0 ≤ R) (hpr : 0 ≤ pr)
    (hsR : s * R ≤ pr) : InDisk (0, 0) pr (toLocalScaled g ox oy s) := by
  intro p hp
  simp only [toLocalScaled, List.mem_map] at hp
  obtain ⟨q, hq, rfl⟩ := hp
  have hd := hg q hq
  simp only [sqDist] at hd ⊢
  have hsR0 : 0 ≤ s * R := mul_nonneg hs hR
  nlinarith [mul_le_mul_of_nonneg_left hd (sq_nonneg s), sq_nonneg (s * R),
    mul_nonneg hsR0 hpr]

theorem normalizePoint_unit (x y r : ℚ) (hr : 0 < r)
    (hd : sqDist (x, y) (0, 0) ≤ r^2) : inUnitSquare (normalizePoint x y r) := by
  simp only [sqDist] at hd
  have hx2 : x^2 ≤ r^2 := by nlinarith [sq_nonneg y]
  have hy2 : y^2 ≤ r^2 := by nlinarith [sq_nonneg x]
  have hxl : -r ≤ x := by nlinarith [sq_nonneg (x + r)]
  have hxu : x ≤ r := by nlinarith [sq_nonneg (x - r)]
  have hyl : -r ≤ y := by nlinarith [sq_nonneg (y + r)]
  have hyu : y ≤ r := by nlinarith [sq_nonneg (y - r)]
  have h2r : 0 < 2 * r := by linarith
  have hnx0 : 0 ≤ (x + r) / (2 * r) := div_nonneg (by linarith) (by linarith)
  have hnx1 : (x + r) / (2 * r) ≤ 1 := (div_le_one h2r).mpr (by linarith)
  have hny0 : 0 ≤ (y + r) / (2 * r) := div_nonneg (by linarith) (by linarith)
  have hny1 : (y + r) / (2 * r) ≤ 1 := (div_le_one h2r).mpr (by linarith)
  simp only [normalizePoint, if_neg (ne_of_gt hr)]
  exact ⟨hnx0, hnx1, by simpa using hny1, by linarith⟩

theorem geometryToPaths_unit {g : Geom} {r : ℚ} (hr : 0 < r)
    (hg : InDisk (0, 0) r g) :
    ∀ path ∈ geometryToPaths g r, ∀ q ∈ path.outer ++ path.holes.flatten,
      inUnitSquare q := by
  intro path hpath q hq
  unfold geometryToPaths at hpath
  split at hpath
  · simp at hpath
  · rename_i hne
    simp only [List.mem_map] at hpath
    obtain ⟨polygon, hpoly, hpe⟩ := hpath
    rw [iterPolygons, if_neg hne] at hpoly
    simp only [List.mem_singleton] at hpoly
    subst hpoly
    subst hpe
    simp only [List.flatten_nil, List.append_nil, List.mem_map] at hq
    obtain ⟨p, hp, rfl⟩ := hq
    exact normalizePoint_unit p.1 p.2 r hr (hg p hp)

theorem processBuilding_poly_prop (lib : GeomLib) (cw : Geom) (ox oy s : ℚ)
    (hb : Option BuildingFootprint) (P : Geom → Prop) (acc : BuildingAcc)
    (f : BuildingFootprint)
    (hPf : P (toLocalScaled (f.polygon_projected.intersection cw) ox oy s))
    (h1 : ∀ pair ∈ acc.building_mesh_data, ∀ g ∈ pair.1, P g)
    (h2 : ∀ g ∈ acc.home_polygons, P g) :
    (∀ pair ∈ (processBuilding lib cw ox oy s hb acc f).building_mesh_data,
      ∀ g ∈ pair.1, P g) ∧
    (∀ g ∈ (processBuilding lib cw ox oy s hb acc f).home_polygons, P g) := by
  by_cases hc : f.polygon_projected.intersection cw = []
  · rw [processBuilding_skip lib cw ox oy s hb acc f hc]
    exact ⟨h1, h2⟩
  · have hl : toLocalScaled (f.polygon_projected.intersection cw) ox oy s ≠ [] := by
      simpa [toLocalScaled_eq_nil_iff] using hc
    have hpolys :
        (iterPolygons (toLocalScaled (f.polygon_projected.intersection cw) ox oy s)).filter
            (fun poly => poly ≠ []) =
          [toLocalScaled (f.polygon_projected.intersection cw) ox oy s] := by
      simp [iterPolygons, hl]
    simp only [processBuilding]
    rw [if_neg hc, hpolys, if_neg (List.cons_ne_nil _ _)]
    split
    · refine ⟨h1, ?_⟩
      intro g hg
      simp only [List.mem_singleton] at hg
      subst hg
      exact hPf
    · refine ⟨?_, h2⟩
      intro pair hpair
      rcases List.mem_append.mp hpair with hold | hnew
      · exact h1 pair hold
      · simp only [List.mem_singleton] at hnew
        subst hnew
        intro g hg
        simp only [List.mem_singleton] at hg
        subst hg
        exact hPf

theorem processBuildings_poly_prop (lib : GeomLib)
    (buildings : List BuildingFootprint) (cw : Geom) (ox oy s : ℚ)
    (hb : Option BuildingFootprint) (P : Geom → Prop)
    (hP : ∀ f : BuildingFootprint,
      P (toLocalScaled (f.polygon_projected.intersection cw) ox oy s)) :
    (∀ pair ∈ (processBuildings lib buildings cw ox oy s hb).building_mesh_data,
      ∀ g ∈ pair.1, P g) ∧
    (∀ g ∈ (processBuildings lib buildings cw ox oy s hb).home_polygons, P g) := by
  unfold processBuildings
  suffices h : ∀ (bs : List BuildingFootprint) (acc : BuildingAcc),
      (∀ pair ∈ acc.building_mesh_data, ∀ g ∈ pair.1, P g) →
      (∀ g ∈ acc.home_polygons, P g) →
      (∀ pair ∈ (bs.foldl (processBuilding lib cw ox oy s hb) acc).building_mesh_data,
        ∀ g ∈ pair.1, P g) ∧
      (∀ g ∈ (bs.foldl (processBuilding lib cw ox oy s hb) acc).home_polygons, P g) by
    exact h buildings {} (by simp [BuildingAcc.building_mesh_data]) (by simp)
  intro bs
  induction bs with
  | nil => intro acc ha hh; exact ⟨ha, hh⟩
  | cons f fs ih =>
    intro acc ha hh
    simp only [List.foldl_cons]
    obtain ⟨ha2, hh2⟩ :=
      processBuilding_poly_prop lib cw ox oy s hb P acc f (hP f) ha hh
    exact ih (processBuilding lib cw ox oy s hb acc f) ha2 hh2

theorem exceptBind_eq_ok {α β ε : Type} {x : Except ε α} {k : α → Except ε β}
    {b : β} (h : (x >>= k) = .ok b) : ∃ a, x = .ok a ∧ k a = .ok b := by
  cases x with
  | error e => simp [Bind.bind, Except.bind] at h
  | ok a => exact ⟨a, rfl, by simpa [Bind.bind, Except.bind] using h⟩

theorem exceptPure_eq_ok {α ε : Type} {a b : α}
    (h : (pure a : Except ε α) = .ok b) : a = b :=
  Except.ok.inj h

/-- The scale factor of the scene context is nonnegative and maps the request
radius inside the print radius. -/
theorem scale_factor_bounds (R pad pr : ℚ) (_hR : 0 ≤ R) (hpad : 0 ≤ pad)
    (hpr : 0 < pr) (hpos : 0 < R + pad) :
    0 ≤ (if R + pad > 0 then pr / (R + pad) else 1) ∧
    (if R + pad > 0 then pr / (R + pad) else 1) * R ≤ pr := by
  rw [if_pos hpos]
  constructor
  · exact div_nonneg (le_of_lt hpr) (le_of_lt hpos)
  · rw [div_mul_eq_mul_div, div_le_iff₀ hpos]
    nlinarith [mul_nonneg (le_of_lt hpr) hpad]

/-- Every path of every channel of every layer preview comes from one of the
eight geometries rendered by mesher._create_layer_previews. -/
theorem createLayerPreviews_paths {prepared : PreparedGeometries} {pr : ℚ}
    {settings : Settings} :
    ∀ preview ∈ createLayerPreviews prepared pr settings,
      ∀ path ∈ preview.base_paths ++ preview.feature_paths ++ preview.overlay_paths,
        path ∈ geometryToPaths prepared.base_circle pr ∨
        path ∈ geometryToPaths prepared.water_union pr ∨
        path ∈ geometryToPaths prepared.land_no_water pr ∨
        path ∈ geometryToPaths prepared.park_union pr ∨
        path ∈ geometryToPaths prepared.building_base pr ∨
        path ∈ geometryToPaths
          (unionGeometries (prepared.building_mesh_data.flatMap fun pair => pair.1)) pr ∨
        path ∈ geometryToPaths prepared.road_union pr ∨
        path ∈ geometryToPaths (unionGeometries prepared.home_polygons) pr := by
  intro preview hpre path hpath
  simp only [createLayerPreviews] at hpre
  split at hpre
  · simp only [List.mem_append, List.mem_cons, List.not_mem_nil, or_false,
      List.mem_singleton] at hpre
    rcases hpre with (rfl | rfl | rfl) | rfl <;>
      · dsimp only at hpath
        simp only [List.mem_append, List.not_mem_nil, or_false] at hpath
        tauto
  · simp only [List.mem_cons, List.not_mem_nil, or_false] at hpre
    rcases hpre with rfl | rfl | rfl <;>
      · dsimp only at hpath
        simp only [List.mem_append, List.not_mem_nil, or_false] at hpath
        tauto

/-- C7: every coordinate of every preview path (outer and hole rings, across
the base, feature and overlay channels of every layer preview) produced by
generate_preview_data lies in the unit square, provided disks buffered by the
geometry library stay within their radius and the padded request radius is
positive. -/
theorem C7_preview_coordinates_unit (lib : GeomLib) (settings : Settings)
    (request : ModelRequest) (buildings : List BuildingFootprint)
    (roads : List RoadFeature) (parks : List ParkFeature)
    (waters : List WaterFeature) (md : ModelMetadata)
    (previews : List LayerPreview)
    (hbuf : ∀ c r, InDisk c r (lib.bufferPoint c r))
    (hrad : 0 ≤ (request.radius_meters : ℚ))
    (hpad : 0 ≤ settings.base_padding_m)
    (hpos : 0 < (request.radius_meters : ℚ) + settings.base_padding_m)
    (hok : generatePreviewData lib settings request buildings roads parks waters =
      .ok (md, previews)) :
    ∀ preview ∈ previews,
      ∀ path ∈ preview.base_paths ++ preview.feature_paths ++ preview.overlay_paths,
        ∀ q ∈ path.outer ++ path.holes.flatten, inUnitSquare q := by
  by_cases hne : buildings = []
  · rw [generatePreviewData, if_pos hne] at hok
    exact absurd hok (by simp [throw, throwThe, MonadExceptOf.throw, Bind.bind, Except.bind])
  rw [generatePreviewData, if_neg hne] at hok
  rw [pure_bind] at hok
  obtain ⟨ctx, hctx, hk⟩ := exceptBind_eq_ok hok
  have hprev : previews =
      createLayerPreviews ctx.prepared ctx.print_radius settings :=
    (Prod.mk.injEq _ _ _ _ ▸ exceptPure_eq_ok hk).2.symm
  simp only [buildSceneContext] at hctx
  obtain ⟨prep, hP, hc⟩ := exceptMap_eq_ok hctx
  have hprep := prepareGeometries_ok_eq lib buildings roads parks waters _ _ _ _ _
    (identifyHomeBuilding lib buildings (request.longitude, request.latitude))
    settings prep hP
  subst hc
  subst hprep
  dsimp only at hprev ⊢
  -- abbreviations for the scene quantities
  set R : ℚ := ((request.radius_meters : ℤ) : ℚ) with hR
  set pr : ℚ := max (settings.target_print_diameter_m / 2) (1/1000) with hprdef
  set ox : ℚ := (lib.projectPoint request.longitude request.latitude).1 with hox
  set oy : ℚ := (lib.projectPoint request.longitude request.latitude).2 with hoy
  set s : ℚ := (if R + settings.base_padding_m > 0 then
    pr / (R + settings.base_padding_m) else 1) with hs
  set cw : Geom := lib.bufferPoint (lib.projectPoint request.longitude request.latitude) R with hcw
  set bc : Geom := lib.bufferPoint (0, 0) pr with hbc
  have hpr : 0 < pr := lt_of_lt_of_le (by norm_num) (le_max_right _ _)
  have hbcD : InDisk (0, 0) pr bc := hbuf _ _
  have hcwD : InDisk (ox, oy) R cw := by
    rw [hcw, hox, hoy]
    exact hbuf _ _
  obtain ⟨hs0, hsR⟩ :=
    scale_factor_bounds R settings.base_padding_m pr hrad hpad hpr hpos
  have hPf : ∀ f : BuildingFootprint,
      InDisk (0, 0) pr (toLocalScaled (f.polygon_projected.intersection cw) ox oy s) := by
    intro f
    refine inDisk_toLocalScaled ?_ (by rw [hs]; exact hs0) hrad (le_of_lt hpr)
      (by rw [hs]; exact hsR)
    exact inDisk_of_subset (fun p hp => (mem_intersection hp).2) hcwD
  obtain ⟨hbmd, hhome⟩ := processBuildings_poly_prop lib buildings cw ox oy s
    (identifyHomeBuilding lib buildings (request.longitude, request.latitude))
    (InDisk (0, 0) pr) hPf
  -- the preview geometries are all inside the print disk
  have hWater : InDisk (0, 0) pr (waterUnionOf waters bc ox oy s) :=
    inDisk_waterUnionOf waters bc ox oy s hbcD
  have hLand : InDisk (0, 0) pr (landNoWaterOf waters bc ox oy s) :=
    inDisk_landNoWaterOf waters bc ox oy s hbcD
  have hParks : InDisk (0, 0) pr (parksUnionOf lib parks waters bc ox oy s settings) :=
    inDisk_parksUnionOf lib parks waters bc ox oy s settings hbcD
  have hRoads : InDisk (0, 0) pr (roadUnionOf lib roads bc ox oy s settings) :=
    inDisk_roadUnionOf lib roads bc ox oy s settings hbcD
  have hBase : InDisk (0, 0) pr (buildingBaseOf lib parks waters bc ox oy s settings) :=
    inDisk_buildingBaseOf lib parks waters bc ox oy s settings hbcD
  have hFeat : InDisk (0, 0) pr
      (unionGeometries
        (((processBuildings lib buildings cw ox oy s
            (identifyHomeBuilding lib buildings
              (request.longitude, request.latitude))).building_mesh_data).flatMap
          fun pair => pair.1)) := by
    apply inDisk_unionGeometries
    intro g hg
    simp only [List.mem_flatMap] at hg
    obtain ⟨pair, hpair, hgp⟩ := hg
    exact hbmd pair hpair g hgp
  have hHome : InDisk (0, 0) pr
      (unionGeometries
        ((processBuildings lib buildings cw ox oy s
          (identifyHomeBuilding lib buildings
            (request.longitude, request.latitude))).home_polygons)) :=
    inDisk_unionGeometries hhome
  intro preview hpre path hpath q hq
  rw [hprev] at hpre
  rcases createLayerPreviews_paths preview hpre path hpath with
    h | h | h | h | h | h | h | h
  · exact geometryToPaths_unit hpr hbcD path h q hq
  · exact geometryToPaths_unit hpr hWater path h q hq
  · exact geometryToPaths_unit hpr hLand path h q hq
  · exact geometryToPaths_unit hpr hParks path h q hq
  · exact geometryToPaths_unit hpr hBase path h q hq
  · exact geometryToPaths_unit hpr hFeat path h q hq
  · exact geometryToPaths_unit hpr hRoads path h q hq
  · exact geometryToPaths_unit hpr hHome path h q hq

/-! ## C9: parks fully consumed by the shrink margin -/

theorem parkPolygons_nil (lib : GeomLib) (parks : List ParkFeature)
    (ox oy s m : ℚ) (hshrink : ∀ g k, lib.shrinkBuffer g k = []) (hm : 0 < m) :
    parkPolygons lib parks ox oy s m = [] := by
  unfold parkPolygons
  apply List.flatMap_eq_nil_iff.mpr
  intro feature _
  apply List.flatMap_eq_nil_iff.mpr
  intro polygon _
  rw [if_pos hm, hshrink]
  rfl

theorem parksUnionOf_nil (lib : GeomLib) (parks : List ParkFeature)
    (waters : List WaterFeature) (bc : Geom) (ox oy s : ℚ) (st : Settings)
    (hshrink : ∀ g k, lib.shrinkBuffer g k = [])
    (hm : 0 < st.park_indent_shrink_m * s) :
    parksUnionOf lib parks waters bc ox oy s st = [] := by
  simp only [parksUnionOf]
  rw [parkPolygons_nil lib parks ox oy s _ hshrink (lt_max_iff.mpr (Or.inl hm))]
  rfl

theorem geometryToPaths_ne_nil {g : Geom} (r : ℚ) (hg : g ≠ []) :
    geometryToPaths g r ≠ [] := by
  simp [geometryToPaths, hg, iterPolygons]

/-- The element at index 1 of the preview list is always the green layer. -/
theorem createLayerPreviews_green (prepared : PreparedGeometries) (pr : ℚ)
    (settings : Settings) :
    (createLayerPreviews prepared pr settings)[1]? = some
      { name := "green_layer"
        thickness_m := settings.green_layer_thickness_m
        base_color := "#dcfce7"
        feature_color := "#16a34a"
        description := "Land disk (thickness x) with holes for water extrusions plus parks raised another x."
        base_paths := geometryToPaths prepared.land_no_water pr
        feature_paths := geometryToPaths prepared.park_union pr } := by
  simp only [createLayerPreviews]
  split <;> rfl

/-- C9: when the (positive) scaled shrink margin fully consumes every park
polygon, the request still succeeds: no error is raised, the green-layer
preview has an empty feature_paths list, and its base_paths list is
non-empty. -/
theorem C9_park_shrink_collapse (lib : GeomLib) (settings : Settings)
    (request : ModelRequest) (buildings : List BuildingFootprint)
    (roads : List RoadFeature) (parks : List ParkFeature)
    (waters : List WaterFeature)
    (hshrink : ∀ g k, lib.shrinkBuffer g k = [])
    (hmargin : 0 < settings.park_indent_shrink_m)
    (hpos : 0 < (request.radius_meters : ℚ) + settings.base_padding_m)
    (hbase : ∀ (c : Pt) (r : ℚ), 0 < r → lib.bufferPoint c r ≠ [])
    (hsurvive : ∃ f ∈ buildings,
      f.polygon_projected.intersection
          (lib.bufferPoint (lib.projectPoint request.longitude request.latitude)
            ((request.radius_meters : ℚ))) ≠ []) :
    ∃ md previews,
      generatePreviewData lib settings request buildings roads parks waters =
        .ok (md, previews) ∧
      ∃ green, previews[1]? = some green ∧ green.name = "green_layer" ∧
        green.feature_paths = [] ∧ green.base_paths ≠ [] := by
  obtain ⟨f0, hf0, hf0ne⟩ := hsurvive
  have hne : buildings ≠ [] := fun h => by simp [h] at hf0
  have hpr : 0 < max (settings.target_print_diameter_m / 2) ((1:ℚ)/1000) :=
    lt_of_lt_of_le (by norm_num) (le_max_right _ _)
  have hmpos : 0 < settings.park_indent_shrink_m *
      (if (request.radius_meters : ℚ) + settings.base_padding_m > 0 then
        max (settings.target_print_diameter_m / 2) (1/1000) /
          ((request.radius_meters : ℚ) + settings.base_padding_m)
      else 1) := by
    rw [if_pos hpos]
    exact mul_pos hmargin (div_pos hpr hpos)
  have hnoerr : ¬ ((processBuildings lib buildings
      (lib.bufferPoint (lib.projectPoint request.longitude request.latitude)
        ((request.radius_meters : ℚ)))
      (lib.projectPoint request.longitude request.latitude).1
      (lib.projectPoint request.longitude request.latitude).2
      (if (request.radius_meters : ℚ) + settings.base_padding_m > 0 then
        max (settings.target_print_diameter_m / 2) (1/1000) /
          ((request.radius_meters : ℚ) + settings.base_padding_m)
      else 1)
      (identifyHomeBuilding lib buildings
        (request.longitude, request.latitude))).building_polygons_all = [] ∧
      (processBuildings lib buildings
        (lib.bufferPoint (lib.projectPoint request.longitude request.latitude)
          ((request.radius_meters : ℚ)))
        (lib.projectPoint request.longitude request.latitude).1
        (lib.projectPoint request.longitude request.latitude).2
        (if (request.radius_meters : ℚ) + settings.base_padding_m > 0 then
          max (settings.target_print_diameter_m / 2) (1/1000) /
            ((request.radius_meters : ℚ) + settings.base_padding_m)
        else 1)
        (identifyHomeBuilding lib buildings
          (request.longitude, request.latitude))).home_polygons = []) := by
    intro hcontra
    exact hf0ne ((processBuildings_empty_iff lib buildings _ _ _ _ _).mp hcontra f0 hf0)
  rcases hgen : generatePreviewData lib settings request buildings roads parks waters
    with e | ⟨md, previews⟩
  · exfalso
    rw [generatePreviewData, if_neg hne, pure_bind] at hgen
    rcases hctx : buildSceneContext lib settings request buildings roads parks waters
      with e2 | ctx
    · rw [buildSceneContext] at hctx
      rcases hP : prepareGeometries lib buildings roads parks waters
          (lib.bufferPoint (lib.projectPoint request.longitude request.latitude)
            ((request.radius_meters : ℚ)))
          (lib.bufferPoint (0, 0)
            (max (settings.target_print_diameter_m / 2) (1/1000)))
          (lib.projectPoint request.longitude request.latitude).1
          (lib.projectPoint request.longitude request.latitude).2
          (if (request.radius_meters : ℚ) + settings.base_padding_m > 0 then
            max (settings.target_print_diameter_m / 2) (1/1000) /
              ((request.radius_meters : ℚ) + settings.base_padding_m)
          else 1)
          (identifyHomeBuilding lib buildings
            (request.longitude, request.latitude))
          settings with e3 | prep
      · simp only [prepareGeometries] at hP
        rw [if_neg hnoerr] at hP
        exact absurd hP (by simp)
      · rw [hP] at hctx
        exact absurd hctx (by simp [Except.map])
    · rw [hctx] at hgen
      simp only [Bind.bind, Except.bind] at hgen
      exact absurd hgen (by simp [pure, Except.pure])
  · refine ⟨md, previews, rfl, ?_⟩
    rw [generatePreviewData, if_neg hne, pure_bind] at hgen
    obtain ⟨ctx, hctx, hk⟩ := exceptBind_eq_ok hgen
    have hprev : previews =
        createLayerPreviews ctx.prepared ctx.print_radius settings :=
      (Prod.mk.injEq _ _ _ _ ▸ exceptPure_eq_ok hk).2.symm
    rw [buildSceneContext] at hctx
    obtain ⟨prep, hP, hc⟩ := exceptMap_eq_ok hctx
    have hprep := prepareGeometries_ok_eq lib buildings roads parks waters _ _ _ _ _
      (identifyHomeBuilding lib buildings (request.longitude, request.latitude))
      settings prep hP
    subst hc
    subst hprep
    dsimp only at hprev
    rw [hprev]
    refine ⟨_, createLayerPreviews_green _ _ _, rfl, ?_, ?_⟩
    · dsimp only
      rw [parksUnionOf_nil lib parks waters _ _ _ _ settings hshrink hmpos]
      rfl
    · dsimp only
      exact geometryToPaths_ne_nil _
        (landNoWaterOf_ne_nil waters _ _ _ _ (hbase (0, 0) _ hpr))

/-! ## C10: highlight flag without highlight_enabled -/

/-- C10: for a request with the highlight flag set, home polygons present and
the highlight_enabled configuration false, the building layer is built with
the home polygons subtracted from the building-base region (leaving a
home-shaped void) even though no highlight layer is written to the archive and
the metadata reports no highlighting. -/
theorem C10_highlight_disabled_void (lib : GeomLib) (settings : Settings)
    (request : ModelRequest) (buildings : List BuildingFootprint)
    (roads : List RoadFeature) (parks : List ParkFeature)
    (waters : List WaterFeature) (ctx : SceneContext) (out : ArchiveResult)
    (hflag : request.highlight_home = true)
    (hdisabled : settings.highlight_enabled = false)
    (hctx : buildSceneContext lib settings request buildings roads parks waters =
      .ok ctx)
    (hhome : ctx.prepared.home_polygons ≠ [])
    (hok : buildModelArchive lib settings request buildings roads parks waters =
      .ok out) :
    "highlight_layer" ∉ out.layers.map Prod.fst ∧
    out.metadata.highlighted = false ∧
    ∃ pieces, ("building_layer", pieces) ∈ out.layers ∧
      buildBuildingLayer lib ctx.prepared.building_base ctx.prepared.road_union
        ctx.prepared.building_mesh_data ctx.prepared.home_polygons settings =
        .ok pieces ∧
      (ctx.prepared.building_base.difference
          (unionGeometries ctx.prepared.home_polygons) ≠ [] →
        ({ geom := ctx.prepared.building_base.difference
              (unionGeometries ctx.prepared.home_polygons)
           height := max (settings.building_layer_thickness_m -
              min settings.road_groove_depth_m
                (settings.building_layer_thickness_m * (4/5))) (1/2000)
           z := 0 } : Piece) ∈ pieces) := by
  by_cases hne : buildings = []
  · rw [buildModelArchive, if_pos hne] at hok
    exact absurd hok
      (by simp [throw, throwThe, MonadExceptOf.throw, Bind.bind, Except.bind])
  rw [buildModelArchive, if_neg hne, pure_bind, hctx] at hok
  simp only [Bind.bind, Except.bind] at hok
  obtain ⟨wm, hwm, hok2⟩ := exceptBind_eq_ok hok
  obtain ⟨gm, hgm, hok3⟩ := exceptBind_eq_ok hok2
  obtain ⟨bm, hbm, hok4⟩ := exceptBind_eq_ok hok3
  have hnw : ¬ (request.highlight_home = true ∧ settings.highlight_enabled = true ∧
      ctx.prepared.home_polygons ≠ [] ∧ qTruthy ctx.prepared.home_height = true) := by
    rintro ⟨_, h2, _, _⟩
    rw [hdisabled] at h2
    exact Bool.false_ne_true h2
  rw [if_neg hnw] at hok4
  simp only [pure, Except.pure] at hok4
  have hout : out =
      { filename := "print3dhood_" ++ toString request.radius_meters ++ "m_layers.zip"
        entries :=
          (request.formats.flatMap fun fmt =>
            [("water_layer", wm), ("green_layer", gm),
              ("building_layer", bm)].map fun pair => "layers/" ++ pair.1 ++ "." ++ fmt) ++
          ["metadata.json"]
        layers := [("water_layer", wm), ("green_layer", gm), ("building_layer", bm)]
        metadata :=
          { building_count := ctx.prepared.building_summaries.length
            radius_meters := request.radius_meters
            highlighted := decide (request.highlight_home = true ∧
              settings.highlight_enabled = true ∧
              ctx.prepared.home_polygons ≠ [] ∧
              qTruthy ctx.prepared.home_height = true)
            formats := request.formats
            origin := (ctx.origin_x, ctx.origin_y)
            scale_ratio := ctx.scale_factor
            layers := buildLayerInfo settings
              (decide (request.highlight_home = true ∧
                settings.highlight_enabled = true ∧
                ctx.prepared.home_polygons ≠ [] ∧
                qTruthy ctx.prepared.home_height = true))
            buildings := ctx.prepared.building_summaries } } :=
    (Except.ok.inj hok4).symm
  rw [if_pos ⟨hflag, hhome⟩] at hbm
  refine ⟨?_, ?_, bm, ?_, hbm, ?_⟩
  · rw [hout]
    simp
  · rw [hout]
    simp only [decide_eq_false_iff_not]
    exact hnw
  · rw [hout]
    simp
  · intro hbgne
    simp only [buildBuildingLayer] at hbm
    split at hbm
    · exact absurd hbm (by simp)
    · split at hbm <;>
        · refine combineMeshes_ok_mem hbm ?_ hbgne
          apply List.mem_append.mpr
          apply Or.inl
          apply List.mem_append.mpr
          apply Or.inl
          rw [iterPolygons, if_neg hbgne]
          exact List.mem_singleton.mpr rfl

/-! ## Concrete fixtures used to evaluate the pipeline on closed inputs -/

/-- A small instantiation of the abstract library: the identity projection,
single-point disks, identity shrink and line buffers, membership containment,
the first coordinate as centroid, squared distance, and the coordinate count
as area. -/
def demoLib : GeomLib where
  projectPoint := fun lon lat => (lon, lat)
  bufferPoint := fun c _ => [c]
  shrinkBuffer := fun g _ => g
  lineBuffer := fun g _ => g
  containsPoint := fun g p => p ∈ g
  centroid := fun g => g.headD (0, 0)
  distance := fun p q => sqDist p q
  area := fun g => (g.length : ℚ)

/-- Like demoLib but every inward buffer fully consumes its polygon. -/
def demoLib2 : GeomLib :=
  { demoLib with shrinkBuffer := fun _ _ => [] }

/-- Like demoLib but buffered disks also carry the point (1, 1). -/
def demoLib10 : GeomLib :=
  { demoLib with bufferPoint := fun c _ => [c, (1, 1)] }

/-- Default configuration except for a print diameter that makes the demo
scale factor equal one. -/
def demoSettings : Settings :=
  { defaultSettings with target_print_diameter_m := 200 }

def demoRequest : ModelRequest :=
  { latitude := 0, longitude := 0, radius_meters := 95 }

/-- The building at the queried location. -/
def demoBuilding : BuildingFootprint :=
  { osm_id := 1, polygon_projected := [(0, 0)], polygon_wgs84 := [(0, 0)]
    height_m := 10 }

/-- A second building away from the queried location. -/
def demoBuilding2 : BuildingFootprint :=
  { osm_id := 2, polygon_projected := [(1, 1)], polygon_wgs84 := [(3, 3)]
    height_m := 20 }

/-- A building with no usable footprint. -/
def demoEmptyBuilding : BuildingFootprint :=
  { osm_id := 3, polygon_projected := [], polygon_wgs84 := [], height_m := 5 }

def demoPark : ParkFeature := { osm_id := 7, polygon_projected := [(0, 0)] }

/-- The geometries prepared for demoRequest with the single demoBuilding. -/
def demoPrepared : PreparedGeometries :=
  { base_circle := [(0, 0)]
    water_union := []
    land_no_water := [(0, 0)]
    park_union := []
    building_base := [(0, 0)]
    road_union := []
    building_mesh_data := []
    building_summaries := [{ osm_id := 1, height_m := 10, footprint_area_m2 := 1 }]
    home_polygons := [[(0, 0)]]
    home_height := some 10 }

def demoContext : SceneContext :=
  { settings := demoSettings
    origin_x := 0
    origin_y := 0
    scale_factor := 1
    print_radius := 100
    prepared := demoPrepared }

theorem demo_scene :
    buildSceneContext demoLib demoSettings demoRequest [demoBuilding] [] [] [] =
      .ok demoContext := by
  norm_num [buildSceneContext, demoLib, demoSettings, demoRequest, demoBuilding,
    demoContext, demoPrepared, defaultSettings, identifyHomeBuilding,
    prepareGeometries, processBuildings, processBuilding, isHomeMatch,
    Geom.intersection, toLocalScaled, iterPolygons, waterUnionOf, landNoWaterOf,
    parksUnionOf, roadUnionOf, buildingBaseOf, waterPolygons, parkPolygons,
    roadBuffers, unionGeometries, clipToCircle, Geom.isEmpty, Geom.difference,
    Except.map]

/-- The geometries prepared directly (no home building) with one park that
survives its shrink. -/
def demoPrepared6 : PreparedGeometries :=
  { base_circle := [(0, 0)]
    water_union := []
    land_no_water := [(0, 0)]
    park_union := [(0, 0)]
    building_base := [(0, 0)]
    road_union := []
    building_mesh_data := [([[(0, 0)]], 10)]
    building_summaries := [{ osm_id := 1, height_m := 10, footprint_area_m2 := 1 }]
    home_polygons := []
    home_height := none }

theorem demo_prepare6 :
    prepareGeometries demoLib [demoBuilding] [] [demoPark] [] [(0, 0)] [(0, 0)]
      0 0 1 none demoSettings = .ok demoPrepared6 := by
  norm_num [demoLib, demoSettings, demoBuilding, demoPark, demoPrepared6,
    defaultSettings, prepareGeometries, processBuildings, processBuilding,
    isHomeMatch, Geom.intersection, toLocalScaled, iterPolygons, waterUnionOf,
    landNoWaterOf, parksUnionOf, roadUnionOf, buildingBaseOf, waterPolygons,
    parkPolygons, roadBuffers, unionGeometries, clipToCircle, Geom.isEmpty,
    Geom.difference]

/-- Witness for C1 on the demo scene: the scale factor is 100/(95+5) = 1. -/
theorem C1_scale_factor_witness :
    demoContext.scale_factor =
      (demoSettings.target_print_diameter_m / 2) /
        ((demoRequest.radius_meters : ℚ) + demoSettings.base_padding_m) ∧
    prepareGeometries demoLib [demoBuilding] [] [] []
      (demoLib.bufferPoint
        (demoLib.projectPoint demoRequest.longitude demoRequest.latitude)
        ((demoRequest.radius_meters : ℚ)))
      (demoLib.bufferPoint (0, 0)
        (max (demoSettings.target_print_diameter_m / 2) (1/1000)))
      (demoLib.projectPoint demoRequest.longitude demoRequest.latitude).1
      (demoLib.projectPoint demoRequest.longitude demoRequest.latitude).2
      demoContext.scale_factor
      (identifyHomeBuilding demoLib [demoBuilding]
        (demoRequest.longitude, demoRequest.latitude))
      demoSettings = .ok demoContext.prepared :=
  C1_scale_factor demoLib demoSettings demoRequest [demoBuilding] [] [] []
    demoContext
    (by norm_num [demoSettings, defaultSettings])
    (by norm_num [demoRequest, demoSettings, defaultSettings])
    demo_scene

/-- Witness for C2 on the empty building list. -/
theorem C2_identify_home_building_witness :
    identifyHomeBuilding demoLib [] (0, 0) = none ∧
    demoPrepared6.home_polygons = [] ∧ demoPrepared6.home_height = none :=
  ⟨(C2_identify_home_building demoLib [] ((0 : ℚ), (0 : ℚ))).1 rfl,
    (C2_identify_home_building demoLib [demoBuilding] ((0 : ℚ), (0 : ℚ))).2.2.2
      [] [demoPark] [] [(0, 0)] [(0, 0)] 0 0 1 demoSettings demoPrepared6
      demo_prepare6⟩

/-- Witness for C5 on the demo preparation. -/
theorem C5_land_and_building_base_fallback_witness :
    (demoPrepared6.land_no_water =
      if demoPrepared6.base_circle.difference demoPrepared6.water_union = [] then
        demoPrepared6.base_circle
      else demoPrepared6.base_circle.difference demoPrepared6.water_union) ∧
    (demoPrepared6.building_base =
      if demoPrepared6.land_no_water.difference demoPrepared6.park_union = [] then
        demoPrepared6.land_no_water
      else demoPrepared6.land_no_water.difference demoPrepared6.park_union) ∧
    demoPrepared6.land_no_water ≠ [] ∧ demoPrepared6.building_base ≠ [] := by
  have h := C5_land_and_building_base_fallback demoLib [demoBuilding] [] [demoPark]
    [] [(0, 0)] [(0, 0)] 0 0 1 none demoSettings demoPrepared6 demo_prepare6
  exact ⟨h.1, h.2.1, (h.2.2 (by simp [demoPrepared6])).1,
    (h.2.2 (by simp [demoPrepared6])).2⟩

/-- Witness for C6: the point of the demo park union lies in the land region. -/
theorem C6_park_union_within_land_witness :
    ((0 : ℚ), (0 : ℚ)) ∈ demoPrepared6.land_no_water :=
  C6_park_union_within_land demoLib [demoBuilding] [] [demoPark] [] [(0, 0)]
    [(0, 0)] 0 0 1 none demoSettings demoPrepared6 demo_prepare6 (0, 0)
    (by simp [demoPrepared6])

theorem demo_scene_err :
    buildSceneContext demoLib demoSettings demoRequest [demoEmptyBuilding] [] [] [] =
      .error "Unable to construct scaled footprints for this area." := by
  norm_num [buildSceneContext, demoLib, demoSettings, demoRequest,
    demoEmptyBuilding, defaultSettings, identifyHomeBuilding, prepareGeometries,
    processBuildings, processBuilding, isHomeMatch, Geom.intersection,
    toLocalScaled, iterPolygons, unionGeometries, clipToCircle, Geom.isEmpty,
    Except.map, pyMinBy, homeDistance]

/-- Witness for C4: with a single footprint-less building both entry points
abort with the scene-construction error. -/
theorem C4_abort_exactly_when_no_buildings_witness :
    buildModelArchive demoLib demoSettings demoRequest [demoEmptyBuilding] [] [] [] =
      .error "Unable to construct scaled footprints for this area." ∧
    generatePreviewData demoLib demoSettings demoRequest [demoEmptyBuilding] [] [] [] =
      .error "Unable to construct scaled footprints for this area." :=
  (C4_abort_exactly_when_no_buildings demoLib [demoEmptyBuilding] [] [] []
    [(0, 0)] [(0, 0)] 0 0 1 none demoSettings).2 demoSettings demoRequest
    "Unable to construct scaled footprints for this area."
    (by simp) demo_scene_err

theorem demo_building_layer :
    buildBuildingLayer demoLib [(0, 0)] [] [([[(1, 1)]], 2)] [] defaultSettings =
      .ok [{ geom := [(0, 0)], height := 3/500, z := 0 },
        { geom := [(0, 0)], height := 3/2000, z := 3/500 },
        { geom := [(1, 1)], height := 2, z := 3/400 }] := by
  norm_num [buildBuildingLayer, demoLib, defaultSettings, combineMeshes,
    iterPolygons, buildingPiecesOf, Geom.isEmpty, Geom.difference,
    unionGeometries]
  intro h
  simp at h

/-- Witness for C3 on the default configuration: slab 6 mm plus groove 1.5 mm
is the configured 7.5 mm, and the demo building extrusion sits at 7.5 mm. -/
theorem C3_thickness_stacking_witness :
    max (defaultSettings.building_layer_thickness_m -
        min defaultSettings.road_groove_depth_m
          (defaultSettings.building_layer_thickness_m * (4/5))) (1/2000) +
      min defaultSettings.road_groove_depth_m
        (defaultSettings.building_layer_thickness_m * (4/5)) =
      defaultSettings.building_layer_thickness_m ∧
    ({ geom := [(1, 1)], height := 2, z := 3/400 } : Piece).z =
      defaultSettings.building_layer_thickness_m ∧
    ({ geom := [(1, 1)], height := 2, z := 3/400 } : Piece) ∈
      [({ geom := [(0, 0)], height := 3/500, z := 0 } : Piece),
        { geom := [(0, 0)], height := 3/2000, z := 3/500 },
        { geom := [(1, 1)], height := 2, z := 3/400 }] := by
  have h := C3_thickness_stacking demoLib [(0, 0)] [] [([[(1, 1)]], 2)] []
    defaultSettings _ demo_building_layer
    (by norm_num [defaultSettings])
  refine ⟨h.1, ?_, ?_⟩
  · exact (h.2 _ (by norm_num [buildingPiecesOf, demoLib, defaultSettings])).1
  · exact (h.2 _ (by norm_num [buildingPiecesOf, demoLib, defaultSettings])).2

def demoMetadata : ModelMetadata :=
  { building_count := 1
    radius_meters := 95
    highlighted := true
    formats := ["stl"]
    origin := (0, 0)
    scale_ratio := 1
    layers := buildLayerInfo demoSettings true
    buildings := [{ osm_id := 1, height_m := 10, footprint_area_m2 := 1 }] }

theorem demo_preview :
    generatePreviewData demoLib demoSettings demoRequest [demoBuilding] [] [] [] =
      .ok (demoMetadata, createLayerPreviews demoPrepared 100 demoSettings) := by
  rw [generatePreviewData, if_neg (by simp), pure_bind, demo_scene]
  simp only [Bind.bind, Except.bind, demoContext]
  rfl

/-- Witness for C7: the centre of the demo print disk normalizes into the
unit square. -/
theorem C7_preview_coordinates_unit_witness :
    inUnitSquare (normalizePoint 0 0 100) := by
  refine C7_preview_coordinates_unit demoLib demoSettings demoRequest
    [demoBuilding] [] [] [] demoMetadata
    (createLayerPreviews demoPrepared 100 demoSettings)
    ?_ (by norm_num [demoRequest]) (by norm_num [demoSettings, defaultSettings])
    (by norm_num [demoRequest, demoSettings, defaultSettings]) demo_preview
    { name := "water_layer"
      thickness_m := demoSettings.base_thickness_m
      base_color := "#bfdbfe"
      feature_color := "#1d4ed8"
      description := "Water/base disk (thickness x) with water bodies extruded 2x to reach street level."
      base_paths := geometryToPaths demoPrepared.base_circle 100
      feature_paths := geometryToPaths demoPrepared.water_union 100 }
    ?_
    { outer := [normalizePoint 0 0 100], holes := [] } ?_
    (normalizePoint 0 0 100) ?_
  · intro c r p hp
    simp only [demoLib, List.mem_singleton] at hp
    subst hp
    simp [sqDist, sq_nonneg]
  · simp [createLayerPreviews, demoPrepared]
  · simp [geometryToPaths, demoPrepared, iterPolygons]
  · simp

/-- Witness for C9: with the library whose inward buffer consumes every
polygon, the demo request still produces a preview whose green layer has no
feature paths. -/
theorem C9_park_shrink_collapse_witness :
    ∃ md previews,
      generatePreviewData demoLib2 demoSettings demoRequest [demoBuilding] []
          [demoPark] [] = .ok (md, previews) ∧
      ∃ green, previews[1]? = some green ∧ green.name = "green_layer" ∧
        green.feature_paths = [] ∧ green.base_paths ≠ [] :=
  C9_park_shrink_collapse demoLib2 demoSettings demoRequest [demoBuilding] []
    [demoPark] []
    (fun _ _ => rfl)
    (by norm_num [demoSettings, defaultSettings])
    (by norm_num [demoRequest, demoSettings, defaultSettings])
    (by intro c r _; simp [demoLib2, demoLib])
    ⟨demoBuilding, by simp,
      by simp [demoLib2, demoLib, demoBuilding, demoRequest, Geom.intersection]⟩

/-! Fixtures for the C10 witness: two buildings, highlighting disabled. -/

def demoSettings10 : Settings := { demoSettings with highlight_enabled := false }

def demoPrepared10 : PreparedGeometries :=
  { base_circle := [(0, 0), (1, 1)]
    water_union := []
    land_no_water := [(0, 0), (1, 1)]
    park_union := []
    building_base := [(0, 0), (1, 1)]
    road_union := []
    building_mesh_data := [([[(1, 1)]], 20)]
    building_summaries := [{ osm_id := 1, height_m := 10, footprint_area_m2 := 1 },
      { osm_id := 2, height_m := 20, footprint_area_m2 := 1 }]
    home_polygons := [[(0, 0)]]
    home_height := some 10 }

def demoContext10 : SceneContext :=
  { settings := demoSettings10
    origin_x := 0
    origin_y := 0
    scale_factor := 1
    print_radius := 100
    prepared := demoPrepared10 }

theorem demo_scene10 :
    buildSceneContext demoLib10 demoSettings10 demoRequest
      [demoBuilding, demoBuilding2] [] [] [] = .ok demoContext10 := by
  norm_num [buildSceneContext, demoLib10, demoLib, demoSettings10, demoSettings,
    demoRequest, demoBuilding, demoBuilding2, demoContext10, demoPrepared10,
    defaultSettings, identifyHomeBuilding, prepareGeometries, processBuildings,
    processBuilding, isHomeMatch, Geom.intersection, toLocalScaled, iterPolygons,
    waterUnionOf, landNoWaterOf, parksUnionOf, roadUnionOf, buildingBaseOf,
    waterPolygons, parkPolygons, roadBuffers, unionGeometries, clipToCircle,
    Geom.isEmpty, Geom.difference, Except.map]

def demoOut10 : ArchiveResult :=
  { filename := "print3dhood_" ++ toString (95 : ℤ) ++ "m_layers.zip"
    entries := ["layers/water_layer.stl", "layers/green_layer.stl",
      "layers/building_layer.stl", "metadata.json"]
    layers := [("water_layer", [{ geom := [(0, 0), (1, 1)], height := 3/400, z := 0 }]),
      ("green_layer", [{ geom := [(0, 0), (1, 1)], height := 3/400, z := 0 }]),
      ("building_layer", [{ geom := [(1, 1)], height := 3/500, z := 0 },
        { geom := [(1, 1)], height := 3/2000, z := 3/500 },
        { geom := [(1, 1)], height := 20, z := 3/400 }])]
    metadata :=
      { building_count := 2
        radius_meters := 95
        highlighted := false
        formats := ["stl"]
        origin := (0, 0)
        scale_ratio := 1
        layers := buildLayerInfo demoSettings10 false
        buildings := [{ osm_id := 1, height_m := 10, footprint_area_m2 := 1 },
          { osm_id := 2, height_m := 20, footprint_area_m2 := 1 }] } }

theorem demo_archive10 :
    buildModelArchive demoLib10 demoSettings10 demoRequest
      [demoBuilding, demoBuilding2] [] [] [] = .ok demoOut10 := by
  rw [buildModelArchive, if_neg (by simp), pure_bind, demo_scene10]
  norm_num [Bind.bind, Except.bind, demoContext10, demoPrepared10, demoSettings10,
    demoSettings, demoRequest, defaultSettings, demoOut10, buildWaterLayer,
    buildGreenLayer, buildBuildingLayer, buildingPiecesOf, combineMeshes,
    iterPolygons, Geom.isEmpty, Geom.difference, unionGeometries, qTruthy,
    demoLib10, demoLib, pure, Except.pure]
  rfl

/-- Witness for C10 on the demo archive with highlighting disabled. -/
theorem C10_highlight_disabled_void_witness :
    "highlight_layer" ∉ demoOut10.layers.map Prod.fst ∧
    demoOut10.metadata.highlighted = false ∧
    ∃ pieces, ("building_layer", pieces) ∈ demoOut10.layers ∧
      buildBuildingLayer demoLib10 demoContext10.prepared.building_base
        demoContext10.prepared.road_union
        demoContext10.prepared.building_mesh_data
        demoContext10.prepared.home_polygons demoSettings10 = .ok pieces ∧
      (demoContext10.prepared.building_base.difference
          (unionGeometries demoContext10.prepared.home_polygons) ≠ [] →
        ({ geom := demoContext10.prepared.building_base.difference
              (unionGeometries demoContext10.prepared.home_polygons)
           height := max (demoSettings10.building_layer_thickness_m -
              min demoSettings10.road_groove_depth_m
                (demoSettings10.building_layer_thickness_m * (4/5))) (1/2000)
           z := 0 } : Piece) ∈ pieces) :=
  C10_highlight_disabled_void demoLib10 demoSettings10 demoRequest
    [demoBuilding, demoBuilding2] [] [] [] demoContext10 demoOut10 rfl rfl
    demo_scene10 (by simp [demoContext10, demoPrepared10]) demo_archive10

end Print3dhood
